import Mathlib

/-!
# Verification of the DevToolHub health-probing engine

A shallow embedding, in Lean 4, of the core of the `devtoolhub` repository:
the configuration model (`src/devtoolhub/config.py`), the health-probing
engine (`src/devtoolhub/health.py` and its byte-identical copy inside
`src/devtoolhub/app.py`), and the focus-or-launch actions
(`src/devtoolhub/app.py` `api_focus`, `src/devtoolhub/tui.py`
`action_open_tool`).

Modelling conventions:
* Python numbers (int and float) are modelled as `Int` and `ℚ`; float
  arithmetic performed by the code (`rss / (1024 * 1024)`, `f"{x:.0f}"`)
  is exact on rationals for all working-set sizes below 2^53, where IEEE
  double division by the power of two 2^20 is exact, so the rational model
  agrees with CPython on that whole range.
* Python dicts (JSON objects, the `details` dict, the status map) are
  ordered association lists: assignment to an existing key updates it in
  place, assignment to a fresh key appends, exactly as CPython dicts do.
* Network and OS interactions (HTTP GET, TCP connect, the `wmic`
  subprocess) are oracles passed in as explicit parameters; the awaited
  result of such an interaction is a `PyOutcome` which can also be an
  `Exception`-derived error or an `asyncio.CancelledError`.  Since
  Python 3.8 `CancelledError` derives from `BaseException`, so the
  `except Exception` handler in `_check_tool` does *not* catch it — the
  embedding keeps the two apart.
* Wall-clock readings (`time.monotonic`, `datetime.now`) are external
  inputs: the computed latency and the timestamp are parameters, and
  `datetime.isoformat` is abstracted to a decimal rendering of the tick.
* `urllib.parse` hostname/port extraction is modelled for http-style URLs
  (scheme `://` netloc, userinfo at `@`, port after the first `:` of the
  host info); IPv6 bracket syntax and the whitespace/underscore tolerance
  of Python `int` are outside the model and are documented where relevant.
-/

namespace DevToolHub

/-- Python truthiness of an optional string: `None` and `""` are falsy. -/
def truthy : Option String → Bool
  | some s => !(s == "")
  | none => false

/-- Python `a or b` on two optional strings: the first operand when truthy,
otherwise the second. -/
def pyOr (a b : Option String) : Option String :=
  if truthy a then a else b

/-- Python `int()` applied to a number: truncation toward zero, i.e.
T-division of the numerator by the denominator (`pyTrunc_eq` below shows
this is the floor for non-negative values and the ceiling otherwise). -/
def pyTrunc (q : ℚ) : Int :=
  Int.tdiv q.num (q.den : Int)

/-- Round-half-to-even on a rational, the rounding of CPython float
formatting `f"{x:.0f}"`, computed on the fraction: the floor, plus one
when the remainder exceeds half the denominator, tie broken to the even
neighbour. -/
def roundHalfEven (q : ℚ) : Int :=
  let f := Int.fdiv q.num (q.den : Int)
  let r := Int.emod q.num (q.den : Int)
  if 2 * r < (q.den : Int) then f
  else if (q.den : Int) < 2 * r then f + 1
  else if Int.emod f 2 = 0 then f else f + 1

/-- CPython `f"{q:.0f}"`: round half to even; a negative value that
rounds to zero prints as `-0` (negativity read off the numerator). -/
def fmtF0 (q : ℚ) : String :=
  let n := roundHalfEven q
  if q.num < 0 ∧ n = 0 then "-0" else toString n

/-- Digits of a natural number grouped in threes from the right, over the
reversed digit list. -/
def chunk3 : List Char → List (List Char)
  | a :: b :: c :: d :: rest => [a, b, c] :: chunk3 (d :: rest)
  | l => [l]

/-- CPython `f"{n:,}"` for a natural number: comma-grouped thousands. -/
def commaGroupNat (n : Nat) : String :=
  let rev := (toString n).toList.reverse
  String.intercalate "," (((chunk3 rev).map (fun g => String.mk g.reverse)).reverse)

/-- CPython `f"{n:,}"` for an integer. -/
def commaGroup (n : Int) : String :=
  if n < 0 then "-" ++ commaGroupNat n.natAbs else commaGroupNat n.natAbs

/-- Python `str.isdigit()` restricted to ASCII input (all `wmic` output
relevant here is ASCII): non-empty and all characters decimal digits. -/
def pyIsDigit (s : String) : Bool :=
  !(s == "") && s.all Char.isDigit

/-- Python `int(s)` on a string that passed `isdigit`. -/
def pyStrToInt (s : String) : Int :=
  (s.toNat?.getD 0 : Int)

/-- Python `str.splitlines` restricted to the line breaks `\r\n`, `\r`,
`\n` (the ones `wmic` emits).  Trailing empties produced by `splitOn` are
immaterial to the callers, which drop blank lines. -/
def pySplitlines (s : String) : List String :=
  (((s.replace "\r\n" "\n").replace "\r" "\n").splitOn "\n")

/-! ## JSON values

Python's `json` module produces `None`, `bool`, `int`, `float`, `str`,
`list` and `dict`.  `bool` is a subclass of `int` in Python, so
`isinstance(x, (int, float))` accepts booleans; the model mirrors that. -/

inductive Json where
  | null
  | bool (b : Bool)
  | int (n : Int)
  | float (q : ℚ)
  | str (s : String)
  | arr (elems : List Json)
  | obj (fields : List (String × Json))

/-- The `isinstance(x, (int, float))` — true for ints, floats and bools. -/
def Json.isNumeric : Json → Bool
  | .bool _ => true
  | .int _ => true
  | .float _ => true
  | _ => false

/-- Numeric value of a JSON number (booleans count as 0/1, as in Python). -/
def Json.numVal : Json → ℚ
  | .bool b => if b then 1 else 0
  | .int n => (n : ℚ)
  | .float q => q
  | _ => 0

/-- Python truthiness of a JSON value. -/
def Json.pyTruthy : Json → Bool
  | .null => false
  | .bool b => b
  | .int n => !(n == 0)
  | .float q => !(q == 0)
  | .str s => !(s == "")
  | .arr l => !l.isEmpty
  | .obj l => !l.isEmpty

/-- Python `str()` of a JSON value.  Exact for the cases the code can
meet on the claim-relevant paths (strings, ints, bools, None); the float
and container renderings are abstracted (no claim inspects them). -/
def Json.pyStr : Json → String
  | .null => "None"
  | .bool b => if b then "True" else "False"
  | .int n => toString n
  | .float q => toString q.num ++ "/" ++ toString q.den
  | .str s => s
  | .arr _ => "[...]"
  | .obj _ => "\x7b...\x7d"

/-- Decidable equality for `Except`, used to evaluate the embedded
`urlparse` port results on concrete inputs. -/
instance {ε α : Type} [DecidableEq ε] [DecidableEq α] :
    DecidableEq (Except ε α) := fun a b =>
  match a, b with
  | .ok x, .ok y =>
    if h : x = y then isTrue (by rw [h])
    else isFalse (fun hh => h (Except.ok.inj hh))
  | .ok _, .error _ => isFalse (fun hh => Except.noConfusion hh)
  | .error _, .ok _ => isFalse (fun hh => Except.noConfusion hh)
  | .error x, .error y =>
    if h : x = y then isTrue (by rw [h])
    else isFalse (fun hh => h (Except.error.inj hh))

/-- The `dict.get` on a parsed JSON object.  Parsed objects have unique keys
(later duplicates overwrite during parsing), so first-match lookup is
exact. -/
def jsonGet (fields : List (String × Json)) (k : String) : Option Json :=
  match fields.find? (fun p => p.1 == k) with
  | some p => some p.2
  | none => none

/-! ## Ordered dictionaries (Python `dict[str, str]` and the status map) -/

/-- CPython dict assignment `m[k] = v`: update in place when the key
exists, append otherwise.  (All dicts built here have unique keys, so
updating the first occurrence is the dict semantics.) -/
def setKey {α : Type} : List (String × α) → String → α → List (String × α)
  | [], k, v => [(k, v)]
  | p :: m, k, v => if p.1 == k then (k, v) :: m else p :: setKey m k v

/-- Dictionary lookup `m.get(k)`. -/
def getKey {α : Type} : List (String × α) → String → Option α
  | [], _ => none
  | p :: m, k => if p.1 == k then some p.2 else getKey m k

/-- Python `dict.update`: assign every pair of `adds`, in order. -/
def updateDict {α : Type} (m adds : List (String × α)) : List (String × α) :=
  adds.foldl (fun acc p => setKey acc p.1 p.2) m

/-! ## `urllib.parse` hostname/port extraction

Model of `urlparse(url).hostname` / `.port` for http-style URLs, following
CPython `urllib/parse.py`: the netloc is what follows `scheme://` (or a
leading `//`) up to the first `/`, `?` or `#`; the host info is the part
of the netloc after the last `@`; the hostname is the host info up to the
first `:`, lowercased, `None` when empty; the port is what follows that
`:`, `None` when empty or when there is no colon, a `ValueError` when not
a decimal number in `0..65535`. -/

/-- Prefix of a character list up to the first `/`, `?` or `#` (CPython
`_splitnetloc`). -/
def takeUntilDelim (l : List Char) : List Char :=
  l.takeWhile (fun c => c ≠ '/' ∧ c ≠ '?' ∧ c ≠ '#')

/-- Whether the characters form a valid URL scheme: alphabetic first
character, then alphanumerics, `+`, `-` or `.` (CPython
`scheme_chars`). -/
def isSchemeL : List Char → Bool
  | [] => false
  | c :: cs =>
    c.isAlpha && cs.all (fun d => d.isAlphanum || d = '+' || d = '-' || d = '.')

/-- Split a character list at the first occurrence of `pat`, returning
what precedes it and what follows it. -/
def findSub (pat : List Char) : List Char → Option (List Char × List Char)
  | [] => none
  | c :: rest =>
    if pat.isPrefixOf (c :: rest) then some ([], (c :: rest).drop pat.length)
    else
      match findSub pat rest with
      | some (pre, after) => some (c :: pre, after)
      | none => none

/-- The netloc of a URL: after `scheme://` when the scheme is valid, or
after a leading `//`, up to the first delimiter; empty otherwise. -/
def netlocChars (url : String) : List Char :=
  match url.toList with
  | '/' :: '/' :: rest => takeUntilDelim rest
  | cs =>
    match findSub [':', '/', '/'] cs with
    | some (pre, after) => if isSchemeL pre then takeUntilDelim after else []
    | none => []

/-- The host info of a netloc: after the last `@` (CPython
`netloc.rpartition('@')`). -/
def hostinfoChars (netloc : List Char) : List Char :=
  ((netloc.reverse.takeWhile (fun c => c ≠ '@')).reverse)

/-- Decimal value of a digit string (only applied under an all-digits
guard, where it agrees with Python `int`). -/
def digitsToNat (l : List Char) : Nat :=
  l.foldl (fun acc c => acc * 10 + (c.toNat - 48)) 0

/-- The `urlparse(url).hostname`: the host info up to the first `:`,
lowercased, `None` when empty. -/
def urlHostname (url : String) : Option String :=
  let hi := hostinfoChars (netlocChars url)
  let h := hi.takeWhile (fun c => c ≠ ':')
  if h.isEmpty then none else some (String.mk (h.map Char.toLower))

/-- The `urlparse(url).port`: what follows the first `:` of the host info —
`none` when there is no colon or nothing after it, the number when a
decimal in `0..65535`, and a raised `ValueError` otherwise. -/
def urlPort (url : String) : Except Unit (Option Nat) :=
  let hi := hostinfoChars (netlocChars url)
  match hi.dropWhile (fun c => c ≠ ':') with
  | [] => .ok none
  | _ :: p =>
    if p.isEmpty then .ok none
    else if p.all Char.isDigit then
      let n := digitsToNat p
      if n ≤ 65535 then .ok (some n) else .error ()
    else .error ()

/-- Whether `urlparse(url).port` evaluates without raising. -/
def urlPortOk (url : String) : Bool :=
  match urlPort url with
  | .ok _ => true
  | .error _ => false

/-! ## Configuration model (`src/devtoolhub/config.py`) -/

/-- The pydantic `Literal["http", "tcp", "process"]` of the
`health_check` field. -/
inductive Strategy where
  | http
  | tcp
  | process
deriving DecidableEq, Repr

/-- The string value a `Strategy` tag carries. -/
def Strategy.toStr : Strategy → String
  | .http => "http"
  | .tcp => "tcp"
  | .process => "process"

/-- The `ToolConfig` from `config.py` (after the pydantic validator ran:
environment-variable expansion of `start_command`/`start_cwd` happens at
load time and does not change the shape of the record). -/
structure ToolConfig where
  name : String
  url : Option String := none
  health_url : Option String := none
  health_check : Option Strategy := none
  window_title : Option String := none
  process_pattern : Option String := none
  start_command : Option String := none
  start_cwd : Option String := none
  start_wsl : Bool := false
  description : String := ""
deriving DecidableEq, Repr

/-- The `ToolConfig.effective_health_check` (`config.py` lines 37-47).  The
Python conditions are truthiness tests: a field set to the empty string
counts like an absent one.  The `health_check` tag, being a non-empty
literal whenever present, is truthy exactly when present. -/
def ToolConfig.effective_health_check (t : ToolConfig) : String :=
  match t.health_check with
  | some hc => hc.toStr
  | none =>
    if truthy t.health_url then "http"
    else if truthy t.process_pattern then "process"
    else if truthy t.url then "http"
    else "none"

/-! ## Probe oracles

The result of awaiting a network or OS interaction.  `exn` stands for a
raised `Exception`-derived error; `cancelled` for
`asyncio.CancelledError`, which derives only from `BaseException` since
Python 3.8 and therefore is *not* caught by `except Exception`. -/

inductive PyOutcome (α : Type) where
  | ok (a : α)
  | exn
  | cancelled
deriving DecidableEq, Repr

/-- A completed `httpx` response: its status code and the result of
`resp.json()` (`.error` when the body fails to parse as JSON). -/
structure HttpResponse where
  status_code : Nat
  body : Except Unit Json

/-- Result of `asyncio.open_connection` within `asyncio.wait_for`:
connected, an `OSError`/`TimeoutError` (caught by `_check_tcp`), or
cancellation. -/
inductive ConnResult where
  | success
  | connError
  | cancelled
deriving DecidableEq, Repr

/-- Result of running the `wmic` subprocess and reading its stdout:
the decoded output, an `OSError`/`TimeoutError` (caught by
`_check_process`), or cancellation. -/
inductive ProcResult where
  | output (s : String)
  | osError
  | cancelled

/-- The external world one `_check_tool` call interacts with.  The TCP
oracle is a function of the host and port actually dialled, so that the
defaulting performed by `_check_tcp` is observable. -/
structure ProbeEnv where
  http : PyOutcome HttpResponse
  tcp : String → Nat → ConnResult
  proc : ProcResult

/-- The environment a cancelled round delivers: every awaited interaction
raises `CancelledError`. -/
def cancelledEnv : ProbeEnv :=
  { http := .cancelled, tcp := fun _ _ => .cancelled, proc := .cancelled }

/-- The `ToolStatus`.  The dataclass is defined twice, byte-identically, at
`health.py` lines 23-28 and `app.py` lines 33-38; the single structure
models both copies.  `last_checked` timestamps are abstract ticks. -/
structure ToolStatus where
  status : String := "unknown"
  latency_ms : Int := 0
  last_checked : Option Nat := none
  details : List (String × String) := []
deriving DecidableEq, Repr

/-- The status map `self.statuses`, an ordered dict keyed by tool name. -/
abbrev StatusMap := List (String × ToolStatus)

/-- The effect of one `_check_tool` call on the status map: a full
replacement record, an early return (unresolvable strategy), or an
unwound cancellation. -/
inductive CheckEffect where
  | write (st : ToolStatus)
  | skip
  | cancelled
deriving DecidableEq, Repr

/-- Where the background poll task is parked: at the inter-round
`asyncio.sleep`, or mid-round with the listed probes each suspended at an
await inside their `try` block. -/
inductive TaskState where
  | sleeping
  | probing (inFlight : List ToolConfig)

/-- The engine: the status map, the background task (if any), and whether
the shared HTTP client is open. -/
structure Engine where
  statuses : StatusMap
  task : Option TaskState
  clientOpen : Bool

/-- The JSON-ready view of one status record produced by
`get_all_statuses` (`last_checked` ISO-rendered, abstracted to the
decimal tick). -/
structure StatusView where
  status : String
  latency_ms : Int
  details : List (String × String)
  last_checked : Option String
deriving DecidableEq, Repr

end DevToolHub

namespace DevToolHub.Health

/-! # The health checker of `src/devtoolhub/health.py` -/

open DevToolHub

/-! ## `_extract_health_info` (`health.py` lines 124-172) -/

/-- Body of the memory loop for one `mem_key` whose value is a dict:
`rss = mem.get("rss"); if rss and isinstance(rss, (int, float)): ...`.
The `memoryMB` value is already megabytes and goes through `int()`;
the `memory` value is bytes and goes through `/(1024*1024)` and
`:.0f` formatting. -/
def memFromDict (mem_key : String) (mem : List (String × Json)) :
    List (String × String) :=
  match jsonGet mem "rss" with
  | some rss =>
    if rss.pyTruthy && rss.isNumeric then
      if mem_key == "memoryMB" then
        [("memory", toString (pyTrunc rss.numVal) ++ " MB")]
      else
        [("memory", fmtF0 (rss.numVal / 1048576) ++ " MB")]
    else []
  | none => []

/-- The memory loop: `for mem_key in ("memoryMB", "memory")`.  The `break`
sits inside `if isinstance(mem, dict)`, so any dict found under
`memoryMB` ends the loop even when it holds no usable `rss` — the
fallback to `memory` happens only when `memoryMB` is missing or not a
dict. -/
def memBlock (data : List (String × Json)) : List (String × String) :=
  match jsonGet data "memoryMB" with
  | some (Json.obj mem) => memFromDict "memoryMB" mem
  | _ =>
    match jsonGet data "memory" with
    | some (Json.obj mem) => memFromDict "memory" mem
    | _ => []

/-- Second iteration of the version loop (`key = "ver"`). -/
def versionVer (data : List (String × Json)) : List (String × String) :=
  match jsonGet data "ver" with
  | some v => if v.pyTruthy then [("version", v.pyStr)] else []
  | none => []

/-- The version loop: `for key in ("version", "ver")`, breaking only when
a present-and-truthy value was taken. -/
def versionBlock (data : List (String × Json)) : List (String × String) :=
  match jsonGet data "version" with
  | some v => if v.pyTruthy then [("version", v.pyStr)] else versionVer data
  | none => versionVer data

/-- The uptime rendering: `secs = int(val); hours = secs // 3600;
mins = (secs % 3600) // 60`, then `"<h>h <m>m"` when `hours > 0`,
`"<m>m"` otherwise.  Python `//` and `%` are floor division and
Euclidean-style modulus, `Int.fdiv`/`Int.emod` here. -/
def uptimeFmt (secs : Int) : String :=
  let hours := Int.fdiv secs 3600
  let mins := Int.fdiv (Int.emod secs 3600) 60
  if hours > 0 then toString hours ++ "h " ++ toString mins ++ "m"
  else toString mins ++ "m"

/-- Second iteration of the uptime loop (`key = "uptime"`). -/
def uptimeUp (data : List (String × Json)) : List (String × String) :=
  match jsonGet data "uptime" with
  | some v => if v.isNumeric then [("uptime", uptimeFmt (pyTrunc v.numVal))] else []
  | none => []

/-- The uptime loop: `for key in ("uptimeSeconds", "uptime")`, breaking
only on a numeric value. -/
def uptimeBlock (data : List (String × Json)) : List (String × String) :=
  match jsonGet data "uptimeSeconds" with
  | some v =>
    if v.isNumeric then [("uptime", uptimeFmt (pyTrunc v.numVal))]
    else uptimeUp data
  | none => uptimeUp data

/-- One iteration of the nested `memoryIndex` loop. -/
def memoryIndexStep (mi : List (String × Json))
    (acc : List (String × String)) (key : String) : List (String × String) :=
  match jsonGet mi key with
  | some v =>
    if v.isNumeric then setKey acc key (commaGroup (pyTrunc v.numVal))
    else acc
  | none => acc

/-- The nested `memoryIndex` block: numeric `types`/`files`/`members`
copied comma-grouped. -/
def memoryIndexBlock (data : List (String × Json)) : List (String × String) :=
  match jsonGet data "memoryIndex" with
  | some (Json.obj mi) =>
    ["types", "files", "members"].foldl (memoryIndexStep mi) []
  | _ => []

/-- One iteration of the top-level counts loop. -/
def topCountsStep (data : List (String × Json))
    (acc : List (String × String)) (key : String) : List (String × String) :=
  match getKey acc key, jsonGet data key with
  | none, some v =>
    if v.isNumeric then acc ++ [(key, commaGroup (pyTrunc v.numVal))]
    else acc
  | _, _ => acc

/-- The top-level counts loop: `types`/`files`/`members` not already set,
copied comma-grouped when numeric. -/
def topCounts (data : List (String × Json)) (info : List (String × String)) :
    List (String × String) :=
  ["types", "files", "members"].foldl (topCountsStep data) info

/-- The `_extract_health_info` (`health.py` lines 124-172): the blocks run in
sequence, each assigning fresh keys to the `info` dict (the key sets of
the first four blocks are pairwise disjoint, so the assignments are plain
appends). -/
def extractHealthInfo (data : List (String × Json)) : List (String × String) :=
  topCounts data (memBlock data ++ versionBlock data ++ uptimeBlock data
    ++ memoryIndexBlock data)

/-! ## `_check_http` (`health.py` lines 101-122) -/

/-- The `str(parsed.port or 80)`: an absent port — and port `0`, which is
falsy — render as 80. -/
def portOr80 (p : Option Nat) : Nat :=
  match p with
  | some n => if n == 0 then 80 else n
  | none => 80

/-- The `_check_http`.  The url is `tool.health_url or tool.url`; a falsy url
returns `(False, {})` before any await.  After the GET completes,
`parsed.port` is evaluated for the `port` detail and can raise
`ValueError` (propagated to `_check_tool`).  A body that fails to parse
as JSON, or parses to a non-dict, leaves the details at just the port. -/
def checkHttp (t : ToolConfig) (env : PyOutcome HttpResponse) :
    PyOutcome (Bool × List (String × String)) :=
  let url? := pyOr t.health_url t.url
  if !truthy url? then .ok (false, [])
  else
    match env with
    | .exn => .exn
    | .cancelled => .cancelled
    | .ok resp =>
      let url := url?.getD ""
      match urlPort url with
      | .error _ => .exn
      | .ok p =>
        let up := resp.status_code < 400
        let details := [("port", toString (portOr80 p))]
        let details :=
          if up then
            match resp.body with
            | .ok (Json.obj fields) => updateDict details (extractHealthInfo fields)
            | _ => details
          else details
        .ok (up, details)

/-- The details dict `_check_http` returns, as a function of the
resolved port and the response: the port entry, plus the extracted
telemetry when the verdict is up and the body parsed to a JSON object. -/
def httpDetails (p : Option Nat) (resp : HttpResponse) :
    List (String × String) :=
  let details := [("port", toString (portOr80 p))]
  if resp.status_code < 400 then
    match resp.body with
    | .ok (Json.obj fields) => updateDict details (extractHealthInfo fields)
    | _ => details
  else details

/-! ## `_check_tcp` (`health.py` lines 174-190) -/

/-- The host `_check_tcp` dials: `parsed.hostname or "127.0.0.1"`. -/
def tcpHost (url : String) : String :=
  match urlHostname url with
  | some h => h
  | none => "127.0.0.1"

/-- The port `_check_tcp` dials: `parsed.port or 80` (applied to a port
that parsed without raising). -/
def tcpPort (url : String) : Nat :=
  match urlPort url with
  | .ok p => portOr80 p
  | .error _ => 80

/-- The `_check_tcp`.  A falsy url returns `False` immediately; `parsed.port`
is evaluated outside the `try` and its `ValueError` propagates; otherwise
the connection attempt decides the verdict, with `OSError`/`TimeoutError`
caught as `False`. -/
def checkTcp (t : ToolConfig) (conn : String → Nat → ConnResult) :
    PyOutcome Bool :=
  if !truthy t.url then .ok false
  else
    let url := t.url.getD ""
    match urlPort url with
    | .error _ => .exn
    | .ok _ =>
      match conn (tcpHost url) (tcpPort url) with
      | .success => .ok true
      | .connError => .ok false
      | .cancelled => .cancelled

/-! ## `_check_process` (`health.py` lines 192-244) -/

/-- The line cleanup of `_check_process`: strip the output, split it into
lines, strip each line, drop blanks and the CSV header (any line starting
with `Node`). -/
def cleanLines (output : String) : List String :=
  ((pySplitlines output.trim).map String.trim).filter
    (fun l => !(l == "") && !l.startsWith "Node")

/-- One step of the aggregation loop over a CSV line:
`parts = line.split(",")`; rows with at least three fields contribute
their stripped second field to the pid list when it is all digits, and
their stripped third field to the memory total when it is all digits. -/
def procStep (acc : Int × List String) (line : String) : Int × List String :=
  let parts := line.splitOn ","
  if parts.length ≥ 3 then
    let pid := ((parts.get? 1).getD "").trim
    let ws := ((parts.get? 2).getD "").trim
    let acc := if !(pid == "") && pyIsDigit pid then (acc.1, acc.2 ++ [pid]) else acc
    if !(ws == "") && pyIsDigit ws then (acc.1 + pyStrToInt ws, acc.2) else acc
  else acc

/-- The pid detail: the first pid, with a `(+k)` suffix when more than
one row matched. -/
def pidLabel (pids : List String) : String :=
  if pids.length == 1 then pids.headD ""
  else pids.headD "" ++ " (+" ++ toString (pids.length - 1) ++ ")"

/-- The details dict `_check_process` builds from the aggregated pid list
and memory total: the pid entry when any pid parsed, then the memory
entry when the total is positive. -/
def procDetails (pids : List String) (total_mem : Int) :
    List (String × String) :=
  let details : List (String × String) :=
    if !pids.isEmpty then [("pid", pidLabel pids)] else []
  if total_mem > 0 then
    setKey details "memory" (fmtF0 ((total_mem : ℚ) / 1048576) ++ " MB")
  else details

/-- The `_check_process`.  A falsy pattern returns `(False, {})`;
`OSError`/`TimeoutError` from the subprocess machinery is caught as
`(False, {})`; cancellation propagates; otherwise the CSV output is
aggregated.  Note the details dict is populated independently of the
verdict: a row with a numeric working set but no parsable pid yields
`(False, {"memory": ...})`. -/
def checkProcess (t : ToolConfig) (env : ProcResult) :
    PyOutcome (Bool × List (String × String)) :=
  if !truthy t.process_pattern then .ok (false, [])
  else
    match env with
    | .osError => .ok (false, [])
    | .cancelled => .cancelled
    | .output out =>
      let lines := cleanLines out
      if lines.isEmpty then .ok (false, [])
      else
        let agg := lines.foldl procStep (0, [])
        .ok (agg.2.length > 0, procDetails agg.2 agg.1)

/-! ## `_check_tool` (`health.py` lines 73-99) -/

/-- The `endpoint` detail the `tcp` branch of `_check_tool` writes on
success: `f"{parsed.hostname}:{parsed.port}"`, rendered verbatim with
*no* defaulting — a missing hostname or port prints as `None`.  (When
the connection succeeded the port is known to parse, since `_check_tcp`
already evaluated it; the `.error` arm is unreachable there.) -/
def endpointDetail (url : String) : String :=
  let hn :=
    match urlHostname url with
    | some h => h
    | none => "None"
  let pstr :=
    match urlPort url with
    | .ok (some p) => toString p
    | .ok none => "None"
    | .error _ => ""
  hn ++ ":" ++ pstr

/-- The body of `_check_tool`'s `try` block: dispatch on the strategy
recomputed from the tool's current configuration. -/
def checkToolCore (t : ToolConfig) (env : ProbeEnv) :
    PyOutcome (Bool × List (String × String)) :=
  let strategy := t.effective_health_check
  if strategy == "http" then checkHttp t env.http
  else if strategy == "tcp" then
    match checkTcp t env.tcp with
    | .exn => .exn
    | .cancelled => .cancelled
    | .ok up =>
      if up then .ok (true, [("endpoint", endpointDetail (t.url.getD ""))])
      else .ok (false, [])
  else checkProcess t env.proc

/-- The `_check_tool` (`health.py` lines 73-99).  The local `details` is still
`{}` at every point where an exception can be raised (the http and
process branches bind it only by the tuple assignment after their call
returns, and the tcp branch's single item assignment mutates the dict
only after its right-hand side evaluated), so the `except Exception`
path writes a `down` record with empty details.  `CancelledError` is not
an `Exception` and unwinds past the handler, so no record is written.
The measured latency and the timestamp are external inputs. -/
def checkTool (t : ToolConfig) (env : ProbeEnv) (lat : Int) (now : Nat) :
    CheckEffect :=
  let strategy := t.effective_health_check
  if strategy != "http" && strategy != "tcp" && strategy != "process" then
    .skip
  else
    match checkToolCore t env with
    | .cancelled => .cancelled
    | .exn =>
      .write { status := "down", latency_ms := lat, last_checked := some now,
               details := [] }
    | .ok (up, details) =>
      .write { status := if up then "up" else "down", latency_ms := lat,
               last_checked := some now, details := details }

/-- Application of one probe's effect to the status map:
`self.statuses[tool.name] = ToolStatus(...)` on a write, the map
untouched on an early return or cancellation. -/
def applyCheck (m : StatusMap) (t : ToolConfig) (env : ProbeEnv)
    (lat : Int) (now : Nat) : StatusMap :=
  match checkTool t env lat now with
  | .write st => setKey m t.name st
  | .skip => m
  | .cancelled => m

/-- One round of `_check_all`: one probe per configured tool.  The probes
run concurrently on the cooperative scheduler and each performs its
(single, synchronous) map write independently; the fold realises one
completion order, and writes to distinct names commute. -/
def roundCheck (tools : List ToolConfig) (env : String → ProbeEnv)
    (lat : String → Int) (now : Nat) (m : StatusMap) : StatusMap :=
  tools.foldl (fun acc t => applyCheck acc t (env t.name) (lat t.name) now) m

/-- The `_init_statuses` (`health.py` lines 40-42): every configured tool gets
a fresh default `ToolStatus` (status `unknown`, empty details). -/
def initStatuses (tools : List ToolConfig) (m : StatusMap) : StatusMap :=
  tools.foldl (fun acc t => setKey acc t.name {}) m

/-! ## Engine lifecycle (`run_initial_check`, `start_polling`, `stop`) -/

/-- The `stop` (`health.py` lines 54-62): cancel the poll task if there is
one, await its unwinding, then close the shared client.  Each in-flight
probe receives `CancelledError` at its await and unwinds without reaching
its status write (`cancelled_probe_writes_nothing` below proves this from
the modelled control flow), so the drained task leaves the map as it was.
With no task the cancel is skipped; `aclose` on an already-closed client
is a no-op, so a second call changes nothing. -/
def stopEngine (e : Engine) : Engine :=
  { statuses := e.statuses, task := none, clientOpen := false }

/-- The `run_initial_check` (`health.py` lines 44-48): populate the status
map with defaults, open the shared client, then run one full round. -/
def run_initial_check (tools : List ToolConfig) (env : String → ProbeEnv)
    (lat : String → Int) (now : Nat) (e : Engine) : Engine :=
  { statuses := roundCheck tools env lat now (initStatuses tools e.statuses),
    task := e.task,
    clientOpen := true }

/-- The `get_all_statuses` (`health.py` lines 246-257). -/
def get_all_statuses (m : StatusMap) : List (String × StatusView) :=
  m.map (fun p =>
    (p.1, { status := p.2.status, latency_ms := p.2.latency_ms,
            details := p.2.details,
            last_checked := p.2.last_checked.map toString }))

/-- Autonomous behaviour of a running engine, for the shutdown claim: the
poll task wakes from its sleep into a round, individual probes complete
(applying their effect to the map), and an empty round goes back to
sleep.  Every step needs a live task. -/
inductive EngStep : Engine → Engine → Prop where
  | wake (e : Engine) (tools : List ToolConfig) :
      e.task = some .sleeping →
      EngStep e { e with task := some (.probing tools) }
  | probeDone (e : Engine) (t : ToolConfig) (rest : List ToolConfig)
      (env : ProbeEnv) (lat : Int) (now : Nat) :
      e.task = some (.probing (t :: rest)) →
      EngStep e { e with statuses := applyCheck e.statuses t env lat now,
                         task := some (.probing rest) }
  | roundDone (e : Engine) :
      e.task = some (.probing []) →
      EngStep e { e with task := some .sleeping }

/-- A probe is parked at an await inside its `try` block only when its
strategy actually reaches one: http needs a truthy url (the GET is the
first await), tcp needs a truthy url whose port parsed (the port parse
precedes the `try`), process needs a truthy pattern. -/
def probeAwaits (t : ToolConfig) : Bool :=
  (t.effective_health_check == "http" && truthy (pyOr t.health_url t.url))
  || (t.effective_health_check == "tcp" && truthy t.url
      && urlPortOk (t.url.getD ""))
  || (t.effective_health_check == "process" && truthy t.process_pattern)

end DevToolHub.Health

namespace DevToolHub.App

/-! # The health checker copy and the focus route of `src/devtoolhub/app.py`

`app.py` lines 33-267 define `ToolStatus` and `HealthChecker` again,
byte-for-byte identical to `health.py` lines 23-257 (an empty `diff`).
The definitions below embed that copy; the equivalence claim compares
them with the `Health` namespace. -/

open DevToolHub

/-- The `_extract_health_info` memory loop body, `app.py` copy. -/
def memFromDict (mem_key : String) (mem : List (String × Json)) :
    List (String × String) :=
  match jsonGet mem "rss" with
  | some rss =>
    if rss.pyTruthy && rss.isNumeric then
      if mem_key == "memoryMB" then
        [("memory", toString (pyTrunc rss.numVal) ++ " MB")]
      else
        [("memory", fmtF0 (rss.numVal / 1048576) ++ " MB")]
    else []
  | none => []

/-- The `_extract_health_info` memory loop, `app.py` copy. -/
def memBlock (data : List (String × Json)) : List (String × String) :=
  match jsonGet data "memoryMB" with
  | some (Json.obj mem) => memFromDict "memoryMB" mem
  | _ =>
    match jsonGet data "memory" with
    | some (Json.obj mem) => memFromDict "memory" mem
    | _ => []

/-- The `_extract_health_info` version fallback, `app.py` copy. -/
def versionVer (data : List (String × Json)) : List (String × String) :=
  match jsonGet data "ver" with
  | some v => if v.pyTruthy then [("version", v.pyStr)] else []
  | none => []

/-- The `_extract_health_info` version loop, `app.py` copy. -/
def versionBlock (data : List (String × Json)) : List (String × String) :=
  match jsonGet data "version" with
  | some v => if v.pyTruthy then [("version", v.pyStr)] else versionVer data
  | none => versionVer data

/-- Uptime rendering, `app.py` copy. -/
def uptimeFmt (secs : Int) : String :=
  let hours := Int.fdiv secs 3600
  let mins := Int.fdiv (Int.emod secs 3600) 60
  if hours > 0 then toString hours ++ "h " ++ toString mins ++ "m"
  else toString mins ++ "m"

/-- The `_extract_health_info` uptime fallback, `app.py` copy. -/
def uptimeUp (data : List (String × Json)) : List (String × String) :=
  match jsonGet data "uptime" with
  | some v => if v.isNumeric then [("uptime", uptimeFmt (pyTrunc v.numVal))] else []
  | none => []

/-- The `_extract_health_info` uptime loop, `app.py` copy. -/
def uptimeBlock (data : List (String × Json)) : List (String × String) :=
  match jsonGet data "uptimeSeconds" with
  | some v =>
    if v.isNumeric then [("uptime", uptimeFmt (pyTrunc v.numVal))]
    else uptimeUp data
  | none => uptimeUp data

/-- Nested index loop iteration, `app.py` copy. -/
def memoryIndexStep (mi : List (String × Json))
    (acc : List (String × String)) (key : String) : List (String × String) :=
  match jsonGet mi key with
  | some v =>
    if v.isNumeric then setKey acc key (commaGroup (pyTrunc v.numVal))
    else acc
  | none => acc

/-- The `_extract_health_info` nested index block, `app.py` copy. -/
def memoryIndexBlock (data : List (String × Json)) : List (String × String) :=
  match jsonGet data "memoryIndex" with
  | some (Json.obj mi) =>
    ["types", "files", "members"].foldl (memoryIndexStep mi) []
  | _ => []

/-- Top-level counts loop iteration, `app.py` copy. -/
def topCountsStep (data : List (String × Json))
    (acc : List (String × String)) (key : String) : List (String × String) :=
  match getKey acc key, jsonGet data key with
  | none, some v =>
    if v.isNumeric then acc ++ [(key, commaGroup (pyTrunc v.numVal))]
    else acc
  | _, _ => acc

/-- The `_extract_health_info` top-level counts, `app.py` copy. -/
def topCounts (data : List (String × Json)) (info : List (String × String)) :
    List (String × String) :=
  ["types", "files", "members"].foldl (topCountsStep data) info

/-- The `_extract_health_info` (`app.py` lines 134-182). -/
def extractHealthInfo (data : List (String × Json)) : List (String × String) :=
  topCounts data (memBlock data ++ versionBlock data ++ uptimeBlock data
    ++ memoryIndexBlock data)

/-- The `str(parsed.port or 80)`, `app.py` copy. -/
def portOr80 (p : Option Nat) : Nat :=
  match p with
  | some n => if n == 0 then 80 else n
  | none => 80

/-- The `_check_http` (`app.py` lines 111-132). -/
def checkHttp (t : ToolConfig) (env : PyOutcome HttpResponse) :
    PyOutcome (Bool × List (String × String)) :=
  let url? := pyOr t.health_url t.url
  if !truthy url? then .ok (false, [])
  else
    match env with
    | .exn => .exn
    | .cancelled => .cancelled
    | .ok resp =>
      let url := url?.getD ""
      match urlPort url with
      | .error _ => .exn
      | .ok p =>
        let up := resp.status_code < 400
        let details := [("port", toString (portOr80 p))]
        let details :=
          if up then
            match resp.body with
            | .ok (Json.obj fields) => updateDict details (extractHealthInfo fields)
            | _ => details
          else details
        .ok (up, details)

/-- The `parsed.hostname or "127.0.0.1"`, `app.py` copy. -/
def tcpHost (url : String) : String :=
  match urlHostname url with
  | some h => h
  | none => "127.0.0.1"

/-- The `parsed.port or 80` on a parsed port, `app.py` copy. -/
def tcpPort (url : String) : Nat :=
  match urlPort url with
  | .ok p => portOr80 p
  | .error _ => 80

/-- The `_check_tcp` (`app.py` lines 184-200). -/
def checkTcp (t : ToolConfig) (conn : String → Nat → ConnResult) :
    PyOutcome Bool :=
  if !truthy t.url then .ok false
  else
    let url := t.url.getD ""
    match urlPort url with
    | .error _ => .exn
    | .ok _ =>
      match conn (tcpHost url) (tcpPort url) with
      | .success => .ok true
      | .connError => .ok false
      | .cancelled => .cancelled

/-- The `_check_process` line cleanup, `app.py` copy. -/
def cleanLines (output : String) : List String :=
  ((pySplitlines output.trim).map String.trim).filter
    (fun l => !(l == "") && !l.startsWith "Node")

/-- The `_check_process` aggregation step, `app.py` copy. -/
def procStep (acc : Int × List String) (line : String) : Int × List String :=
  let parts := line.splitOn ","
  if parts.length ≥ 3 then
    let pid := ((parts.get? 1).getD "").trim
    let ws := ((parts.get? 2).getD "").trim
    let acc := if !(pid == "") && pyIsDigit pid then (acc.1, acc.2 ++ [pid]) else acc
    if !(ws == "") && pyIsDigit ws then (acc.1 + pyStrToInt ws, acc.2) else acc
  else acc

/-- Pid detail, `app.py` copy. -/
def pidLabel (pids : List String) : String :=
  if pids.length == 1 then pids.headD ""
  else pids.headD "" ++ " (+" ++ toString (pids.length - 1) ++ ")"

/-- Details dict of `_check_process`, `app.py` copy. -/
def procDetails (pids : List String) (total_mem : Int) :
    List (String × String) :=
  let details : List (String × String) :=
    if !pids.isEmpty then [("pid", pidLabel pids)] else []
  if total_mem > 0 then
    setKey details "memory" (fmtF0 ((total_mem : ℚ) / 1048576) ++ " MB")
  else details

/-- The `_check_process` (`app.py` lines 202-254). -/
def checkProcess (t : ToolConfig) (env : ProcResult) :
    PyOutcome (Bool × List (String × String)) :=
  if !truthy t.process_pattern then .ok (false, [])
  else
    match env with
    | .osError => .ok (false, [])
    | .cancelled => .cancelled
    | .output out =>
      let lines := cleanLines out
      if lines.isEmpty then .ok (false, [])
      else
        let agg := lines.foldl procStep (0, [])
        .ok (agg.2.length > 0, procDetails agg.2 agg.1)

/-- The `endpoint` detail, `app.py` copy. -/
def endpointDetail (url : String) : String :=
  let hn :=
    match urlHostname url with
    | some h => h
    | none => "None"
  let pstr :=
    match urlPort url with
    | .ok (some p) => toString p
    | .ok none => "None"
    | .error _ => ""
  hn ++ ":" ++ pstr

/-- The `_check_tool` try-block body, `app.py` copy. -/
def checkToolCore (t : ToolConfig) (env : ProbeEnv) :
    PyOutcome (Bool × List (String × String)) :=
  let strategy := t.effective_health_check
  if strategy == "http" then checkHttp t env.http
  else if strategy == "tcp" then
    match checkTcp t env.tcp with
    | .exn => .exn
    | .cancelled => .cancelled
    | .ok up =>
      if up then .ok (true, [("endpoint", endpointDetail (t.url.getD ""))])
      else .ok (false, [])
  else checkProcess t env.proc

/-- The `_check_tool` (`app.py` lines 83-109). -/
def checkTool (t : ToolConfig) (env : ProbeEnv) (lat : Int) (now : Nat) :
    CheckEffect :=
  let strategy := t.effective_health_check
  if strategy != "http" && strategy != "tcp" && strategy != "process" then
    .skip
  else
    match checkToolCore t env with
    | .cancelled => .cancelled
    | .exn =>
      .write { status := "down", latency_ms := lat, last_checked := some now,
               details := [] }
    | .ok (up, details) =>
      .write { status := if up then "up" else "down", latency_ms := lat,
               last_checked := some now, details := details }

/-- One probe's effect on the status map, `app.py` copy. -/
def applyCheck (m : StatusMap) (t : ToolConfig) (env : ProbeEnv)
    (lat : Int) (now : Nat) : StatusMap :=
  match checkTool t env lat now with
  | .write st => setKey m t.name st
  | .skip => m
  | .cancelled => m

/-- One `_check_all` round, `app.py` copy. -/
def roundCheck (tools : List ToolConfig) (env : String → ProbeEnv)
    (lat : String → Int) (now : Nat) (m : StatusMap) : StatusMap :=
  tools.foldl (fun acc t => applyCheck acc t (env t.name) (lat t.name) now) m

/-- The `_init_statuses` (`app.py` lines 50-52). -/
def initStatuses (tools : List ToolConfig) (m : StatusMap) : StatusMap :=
  tools.foldl (fun acc t => setKey acc t.name {}) m

/-- The `stop` (`app.py` lines 64-72). -/
def stopEngine (e : Engine) : Engine :=
  { statuses := e.statuses, task := none, clientOpen := false }

/-- The `run_initial_check` (`app.py` lines 54-58). -/
def run_initial_check (tools : List ToolConfig) (env : String → ProbeEnv)
    (lat : String → Int) (now : Nat) (e : Engine) : Engine :=
  { statuses := roundCheck tools env lat now (initStatuses tools e.statuses),
    task := e.task,
    clientOpen := true }

/-- The `get_all_statuses` (`app.py` lines 256-267). -/
def get_all_statuses (m : StatusMap) : List (String × StatusView) :=
  m.map (fun p =>
    (p.1, { status := p.2.status, latency_ms := p.2.latency_ms,
            details := p.2.details,
            last_checked := p.2.last_checked.map toString }))

/-! ## The focus route (`app.py` lines 313-343) -/

/-- A `JSONResponse` of the focus route: the `ok` flag, the message, and
the HTTP status code. -/
structure ApiResponse where
  ok : Bool
  message : String
  status_code : Nat
deriving DecidableEq, Repr

/-- The `api_focus`.  `focusW` is the `focus_window` oracle (whether a window
with the given title was found and raised); `launchP` is the
`launch_process` oracle (the new pid, or `None` on an `OSError`).  The
route 404s when the tool is unknown or has no (truthy) `window_title`;
otherwise it tries to focus, then launches when a `start_command` is
configured, and reports `Window not found` only when none is. -/
def api_focus (tools : List ToolConfig) (tool_name : String)
    (focusW : String → Bool) (launchP : String → Option Nat) : ApiResponse :=
  match tools.find? (fun t => t.name == tool_name) with
  | none => { ok := false, message := "Tool not found or no window_title",
              status_code := 404 }
  | some tool =>
    if !truthy tool.window_title then
      { ok := false, message := "Tool not found or no window_title",
        status_code := 404 }
    else if focusW (tool.window_title.getD "") then
      { ok := true, message := "Focused", status_code := 200 }
    else if truthy tool.start_command then
      match launchP (tool.start_command.getD "") with
      | some pid =>
        { ok := true, message := "Opening (PID " ++ toString pid ++ ")",
          status_code := 200 }
      | none => { ok := false, message := "Failed to start", status_code := 500 }
    else
      { ok := false, message := "Window not found", status_code := 404 }

end DevToolHub.App

namespace DevToolHub.Tui

/-! # `action_open_tool` of `src/devtoolhub/tui.py` (lines 198-221) -/

open DevToolHub

/-- The `action_open_tool`.  The argument is the selected tool (`none` when
no row is selected: the action returns without setting a status).  The
result is the status-bar message set, `none` when none is.  `launchP`
receives the command, working directory and WSL flag, and returns the
pid or `None` on a spawn error. -/
def action_open_tool (tool : Option ToolConfig) (focusW : String → Bool)
    (launchP : String → Option String → Bool → Option Nat) : Option String :=
  match tool with
  | none => none
  | some tool =>
    if truthy tool.window_title then
      if focusW (tool.window_title.getD "") then
        some ("Focused " ++ tool.name)
      else if truthy tool.start_command then
        match launchP (tool.start_command.getD "") tool.start_cwd tool.start_wsl with
        | some pid =>
          some ("Launched " ++ tool.name ++ " (PID " ++ toString pid ++ ")")
        | none => some ("Failed to launch " ++ tool.name)
      else some ("Window not found for " ++ tool.name)
    else if truthy tool.url then
      some ("Opened " ++ tool.name ++ " in browser")
    else some ("No URL or window configured for " ++ tool.name)

end DevToolHub.Tui

namespace DevToolHub.SpecSide

/-! # Spec-side descriptions

Declarative restatements of claim properties, written from the claims'
wording (as amended where the code forced an amendment), to be compared
with the embedded code. -/

open DevToolHub

/-- The memory detail as the amended claim describes it: taken from
`memoryMB.rss` when `memoryMB` is an object whose `rss` is a truthy
number (already megabytes, truncated); otherwise — only when `memoryMB`
is *not* an object — from `memory.rss` when `memory` is an object whose
`rss` is a truthy number (bytes, divided by 1,048,576 and rounded half
to even); no detail in every other case. -/
def memorySpec (data : List (String × Json)) : Option String :=
  match jsonGet data "memoryMB" with
  | some (Json.obj mb) =>
    match jsonGet mb "rss" with
    | some rss =>
      if rss.pyTruthy && rss.isNumeric then
        some (toString (pyTrunc rss.numVal) ++ " MB")
      else none
    | none => none
  | _ =>
    match jsonGet data "memory" with
    | some (Json.obj mb) =>
      match jsonGet mb "rss" with
      | some rss =>
        if rss.pyTruthy && rss.isNumeric then
          some (fmtF0 (rss.numVal / 1048576) ++ " MB")
        else none
      | none => none
    | _ => none

/-- The uptime rendering as the claim words it: hour/minute split of the
truncated seconds, with the `"<h>h <m>m"` form used exactly when the
*value* is at least 3600 seconds. -/
def uptimeSpecFmt (q : ℚ) : String :=
  let secs := pyTrunc q
  let hours := Int.fdiv secs 3600
  let mins := Int.fdiv (Int.emod secs 3600) 60
  if 3600 ≤ q then toString hours ++ "h " ++ toString mins ++ "m"
  else toString mins ++ "m"

/-- Second alias of the uptime rule: the `uptime` field. -/
def uptimeSpecFallback (data : List (String × Json)) : Option String :=
  match jsonGet data "uptime" with
  | some v => if v.isNumeric then some (uptimeSpecFmt v.numVal) else none
  | none => none

/-- The uptime detail as the claim describes it: from `uptimeSeconds` or
else `uptime`, first numeric match wins. -/
def uptimeSpec (data : List (String × Json)) : Option String :=
  match jsonGet data "uptimeSeconds" with
  | some v =>
    if v.isNumeric then some (uptimeSpecFmt v.numVal)
    else uptimeSpecFallback data
  | none => uptimeSpecFallback data

/-- The matching process ids as the amended claim describes them: for
each cleaned CSV row with at least three comma-separated fields, the
stripped second field when it is a non-empty digit string. -/
def validPids (lines : List String) : List String :=
  lines.filterMap (fun l =>
    let parts := l.splitOn ","
    if parts.length ≥ 3 then
      let pid := ((parts.get? 1).getD "").trim
      if !(pid == "") && pyIsDigit pid then some pid else none
    else none)

/-- The total working-set bytes summed across matching rows: the stripped
third field of each well-formed row, when it is a non-empty digit
string. -/
def memSum (lines : List String) : Int :=
  (lines.map (fun l =>
    let parts := l.splitOn ","
    if parts.length ≥ 3 then
      let ws := ((parts.get? 2).getD "").trim
      if !(ws == "") && pyIsDigit ws then pyStrToInt ws else 0
    else 0)).sum

end DevToolHub.SpecSide

namespace DevToolHub

/-! # Helper lemmas: ordered dictionaries -/

theorem getKey_setKey_same {α : Type} (m : List (String × α)) (k : String)
    (v : α) : getKey (setKey m k v) k = some v := by
  induction m with
  | nil => simp [setKey, getKey]
  | cons p m ih =>
    by_cases h : p.1 = k
    · simp [setKey, getKey, h]
    · simp [setKey, getKey, h, ih]

theorem getKey_setKey_other {α : Type} (m : List (String × α)) (k k' : String)
    (v : α) (h : k' ≠ k) : getKey (setKey m k v) k' = getKey m k' := by
  induction m with
  | nil => simp [setKey, getKey, Ne.symm h]
  | cons p m ih =>
    by_cases hp : p.1 = k
    · simp [setKey, getKey, hp, Ne.symm h]
    · by_cases hp' : p.1 = k'
      · simp [setKey, getKey, hp, hp', h, Ne.symm h]
      · simp [setKey, getKey, hp, hp', ih]

theorem getKey_append {α : Type} (a b : List (String × α)) (k : String) :
    getKey (a ++ b) k =
      match getKey a k with
      | some v => some v
      | none => getKey b k := by
  induction a with
  | nil => simp [getKey]
  | cons p a ih =>
    by_cases h : p.1 = k
    · simp [getKey, h]
    · simp [getKey, h, ih]

/-! # Helper lemmas: Python number truncation -/

/-- The T-division implementing `pyTrunc` is the floor for non-negative
rationals and the ceiling for negative ones — Python `int()`. -/
theorem pyTrunc_eq (q : ℚ) : pyTrunc q = if 0 ≤ q then ⌊q⌋ else ⌈q⌉ := by
  unfold pyTrunc
  by_cases h : 0 ≤ q
  · rw [if_pos h,
      Int.tdiv_eq_ediv (Rat.num_nonneg.mpr h) (by positivity), Rat.floor_def]
  · rw [if_neg h]
    have hnum : ¬ 0 ≤ q.num := fun hh => h (Rat.num_nonneg.mp hh)
    have h1 : Int.tdiv q.num (q.den : Int)
        = -Int.tdiv (-q.num) (q.den : Int) := by
      rw [Int.neg_tdiv, neg_neg]
    rw [h1, Int.tdiv_eq_ediv (by omega) (by positivity)]
    have h2 : ⌈q⌉ = -⌊-q⌋ := rfl
    rw [h2, Rat.floor_def, Rat.num_neg_eq_neg_num]
    rfl

end DevToolHub

namespace DevToolHub.Health

/-! # Helper lemmas: which keys each extractor block can produce -/

open DevToolHub

theorem memFromDict_no (mk : String) (mem : List (String × Json)) (k : String)
    (hk : k ≠ "memory") : getKey (memFromDict mk mem) k = none := by
  unfold memFromDict
  split
  · split_ifs <;> simp [getKey, Ne.symm hk]
  · simp [getKey]

theorem memBlock_no (data : List (String × Json)) (k : String)
    (hk : k ≠ "memory") : getKey (memBlock data) k = none := by
  unfold memBlock
  split
  · exact memFromDict_no _ _ _ hk
  · split
    · exact memFromDict_no _ _ _ hk
    · simp [getKey]

theorem versionVer_no (data : List (String × Json)) (k : String)
    (hk : k ≠ "version") : getKey (versionVer data) k = none := by
  unfold versionVer
  split
  · split_ifs <;> simp [getKey, Ne.symm hk]
  · simp [getKey]

theorem versionBlock_no (data : List (String × Json)) (k : String)
    (hk : k ≠ "version") : getKey (versionBlock data) k = none := by
  unfold versionBlock
  split
  · split_ifs
    · simp [getKey, Ne.symm hk]
    · exact versionVer_no _ _ hk
  · exact versionVer_no _ _ hk

theorem uptimeUp_no (data : List (String × Json)) (k : String)
    (hk : k ≠ "uptime") : getKey (uptimeUp data) k = none := by
  unfold uptimeUp
  split
  · split_ifs <;> simp [getKey, Ne.symm hk]
  · simp [getKey]

theorem uptimeBlock_no (data : List (String × Json)) (k : String)
    (hk : k ≠ "uptime") : getKey (uptimeBlock data) k = none := by
  unfold uptimeBlock
  split
  · split_ifs
    · simp [getKey, Ne.symm hk]
    · exact uptimeUp_no _ _ hk
  · exact uptimeUp_no _ _ hk

theorem memoryIndexStep_no (mi : List (String × Json))
    (acc : List (String × String)) (key k : String) (hk : k ≠ key)
    (hacc : getKey acc k = none) :
    getKey (memoryIndexStep mi acc key) k = none := by
  unfold memoryIndexStep
  split
  · split_ifs
    · rw [getKey_setKey_other _ _ _ _ hk]; exact hacc
    · exact hacc
  · exact hacc

theorem memoryIndexBlock_no (data : List (String × Json)) (k : String)
    (h1 : k ≠ "types") (h2 : k ≠ "files") (h3 : k ≠ "members") :
    getKey (memoryIndexBlock data) k = none := by
  unfold memoryIndexBlock
  split
  · simp only [List.foldl]
    exact memoryIndexStep_no _ _ _ _ h3
      (memoryIndexStep_no _ _ _ _ h2
        (memoryIndexStep_no _ _ _ _ h1 (by simp [getKey])))
  · simp [getKey]

theorem topCountsStep_pres (data : List (String × Json))
    (acc : List (String × String)) (key k : String) (hk : k ≠ key) :
    getKey (topCountsStep data acc key) k = getKey acc k := by
  unfold topCountsStep
  split
  · split_ifs
    · rw [getKey_append]
      cases h : getKey acc k <;> simp [getKey, Ne.symm hk]
    · rfl
  · rfl

theorem topCounts_pres (data : List (String × Json))
    (info : List (String × String)) (k : String)
    (h1 : k ≠ "types") (h2 : k ≠ "files") (h3 : k ≠ "members") :
    getKey (topCounts data info) k = getKey info k := by
  unfold topCounts
  simp only [List.foldl]
  rw [topCountsStep_pres _ _ _ _ h3, topCountsStep_pres _ _ _ _ h2,
    topCountsStep_pres _ _ _ _ h1]

/-- The `memory` detail of the whole extractor comes only from the memory
block: no later block writes that key. -/
theorem extract_memory (data : List (String × Json)) :
    getKey (extractHealthInfo data) "memory" = getKey (memBlock data) "memory" := by
  unfold extractHealthInfo
  rw [topCounts_pres _ _ _ (by decide) (by decide) (by decide)]
  simp only [List.append_assoc]
  rw [getKey_append]
  cases h : getKey (memBlock data) "memory" with
  | some s => rfl
  | none =>
    simp [getKey_append, versionBlock_no data "memory" (by decide),
      uptimeBlock_no data "memory" (by decide),
      memoryIndexBlock_no data "memory" (by decide) (by decide) (by decide)]

/-- The `uptime` detail of the whole extractor comes only from the uptime
block. -/
theorem extract_uptime (data : List (String × Json)) :
    getKey (extractHealthInfo data) "uptime" = getKey (uptimeBlock data) "uptime" := by
  unfold extractHealthInfo
  rw [topCounts_pres _ _ _ (by decide) (by decide) (by decide)]
  simp only [List.append_assoc]
  simp only [getKey_append, memBlock_no data "uptime" (by decide),
    versionBlock_no data "uptime" (by decide),
    memoryIndexBlock_no data "uptime" (by decide) (by decide) (by decide)]
  cases h : getKey (uptimeBlock data) "uptime" <;> simp

/-! # Helper lemmas: the memory and uptime blocks against the spec-side
descriptions -/

/-- The code's hour test (`hours > 0` on the truncated seconds) agrees
with the claim's wording (`value ≥ 3600 seconds`). -/
theorem uptimeFmt_spec (q : ℚ) :
    uptimeFmt (pyTrunc q) = SpecSide.uptimeSpecFmt q := by
  unfold uptimeFmt SpecSide.uptimeSpecFmt
  by_cases h : (3600 : ℚ) ≤ q
  · have hs : 3600 ≤ pyTrunc q := by
      rw [pyTrunc_eq, if_pos (le_trans (by norm_num) h)]
      exact Int.le_floor.mpr (by exact_mod_cast h)
    have hd : 0 < Int.fdiv (pyTrunc q) 3600 := by
      rw [Int.fdiv_eq_ediv _ (by norm_num)]; omega
    simp [h, hd]
  · have hs : pyTrunc q < 3600 := by
      rw [pyTrunc_eq]
      split_ifs with h0
      · exact Int.floor_lt.mpr (by push_cast; linarith [not_le.mp h])
      · have : ⌈q⌉ ≤ 0 := Int.ceil_le.mpr (by push_cast; linarith [not_le.mp h0])
        omega
    have hd : ¬ 0 < Int.fdiv (pyTrunc q) 3600 := by
      rw [Int.fdiv_eq_ediv _ (by norm_num)]; omega
    simp [h, hd]

theorem uptimeUp_spec (data : List (String × Json)) :
    getKey (uptimeUp data) "uptime" = SpecSide.uptimeSpecFallback data := by
  unfold uptimeUp SpecSide.uptimeSpecFallback
  split
  · split_ifs <;> simp [getKey, uptimeFmt_spec]
  · simp [getKey]

theorem uptimeBlock_spec (data : List (String × Json)) :
    getKey (uptimeBlock data) "uptime" = SpecSide.uptimeSpec data := by
  unfold uptimeBlock SpecSide.uptimeSpec
  split
  · split_ifs
    · simp [getKey, uptimeFmt_spec]
    · exact uptimeUp_spec data
  · exact uptimeUp_spec data

theorem memBlock_spec (data : List (String × Json)) :
    getKey (memBlock data) "memory" = SpecSide.memorySpec data := by
  unfold memBlock SpecSide.memorySpec
  split
  · unfold memFromDict
    split
    · split_ifs with hb hk
      · simp [getKey]
      · exact absurd (by decide) hk
      · simp [getKey]
    · simp [getKey]
  · split
    · unfold memFromDict
      split
      · split_ifs with hb hk
        · exact absurd hk (by decide)
        · simp [getKey]
        · simp [getKey]
      · simp [getKey]
    · simp [getKey]

/-! # Helper lemmas: the process-probe aggregation loop -/

/-- The single left fold of `_check_process` computes the declarative
aggregate: the digit pids of the well-formed rows, and the sum of the
digit working-set fields. -/
theorem procFold (lines : List String) (a : Int) (ps : List String) :
    lines.foldl procStep (a, ps)
      = (a + SpecSide.memSum lines, ps ++ SpecSide.validPids lines) := by
  induction lines generalizing a ps with
  | nil => simp [SpecSide.memSum, SpecSide.validPids]
  | cons l rest ih =>
    simp only [List.foldl, ih]
    unfold procStep SpecSide.memSum SpecSide.validPids
    simp only [List.filterMap_cons, List.map_cons, List.sum_cons]
    split_ifs <;>
      simp_all [SpecSide.memSum, SpecSide.validPids, Prod.ext_iff,
        List.append_assoc] <;>
      omega

/-- On a truthy URL whose port parses, a completed GET produces exactly
the `status < 400` verdict and the `httpDetails` dict. -/
theorem checkHttp_val (t : ToolConfig) (resp : HttpResponse) (p : Option Nat)
    (hurl : truthy (pyOr t.health_url t.url) = true)
    (hport : urlPort ((pyOr t.health_url t.url).getD "") = .ok p) :
    checkHttp t (.ok resp)
      = .ok (decide (resp.status_code < 400), httpDetails p resp) := by
  unfold checkHttp httpDetails
  simp only [hurl, hport, Bool.not_true, Bool.false_eq_true, if_false]

/-- When the body does not parse to a JSON object, the details stay at
just the resolved port. -/
theorem httpDetails_no_obj (p : Option Nat) (resp : HttpResponse)
    (hno : ∀ fields, resp.body ≠ .ok (Json.obj fields)) :
    httpDetails p resp = [("port", toString (portOr80 p))] := by
  unfold httpDetails
  by_cases hs : resp.status_code < 400 <;>
    rcases hb : resp.body with e | j <;> try cases j
  all_goals simp_all

/-! # Helper lemmas: strategy resolution and the probe dispatch -/

/-- The `effective_health_check` takes one of exactly four values. -/
theorem eff_values (t : ToolConfig) :
    t.effective_health_check = "http" ∨ t.effective_health_check = "tcp"
    ∨ t.effective_health_check = "process"
    ∨ t.effective_health_check = "none" := by
  unfold ToolConfig.effective_health_check
  cases h : t.health_check with
  | some hc => cases hc <;> simp [Strategy.toStr]
  | none => split_ifs <;> simp

/-- An unresolvable strategy implies a falsy `process_pattern`. -/
theorem eff_none_pattern (t : ToolConfig)
    (h : t.effective_health_check = "none") :
    truthy t.process_pattern = false := by
  unfold ToolConfig.effective_health_check at h
  cases hh : t.health_check with
  | some hc => rw [hh] at h; cases hc <;> simp [Strategy.toStr] at h
  | none =>
    rw [hh] at h
    split_ifs at h with h1 h2 h3
    · exact absurd h (by decide)
    · exact absurd h (by decide)
    · exact absurd h (by decide)
    · simpa using h2

/-- With an unresolvable strategy the `try` body returns `(False, {})`
without touching any oracle (the process branch bails out on the falsy
pattern). -/
theorem eff_none_core (t : ToolConfig) (env : ProbeEnv)
    (h : t.effective_health_check = "none") :
    checkToolCore t env = .ok (false, []) := by
  simp +decide [checkToolCore, h, checkProcess, eff_none_pattern t h]

/-- A probe whose `try` body raises an `Exception` yields a write of the
full `down` record with empty details. -/
theorem checkTool_write_of_exn (t : ToolConfig) (env : ProbeEnv)
    (lat : Int) (now : Nat) (hexn : checkToolCore t env = .exn) :
    checkTool t env lat now
      = .write { status := "down", latency_ms := lat, last_checked := some now,
                 details := [] } := by
  rcases eff_values t with h | h | h | h
  · simp +decide [checkTool, h, hexn]
  · simp +decide [checkTool, h, hexn]
  · simp +decide [checkTool, h, hexn]
  · rw [eff_none_core t env h] at hexn; exact absurd hexn (by simp)

/-- A probe with an unresolvable strategy returns early: the status map
is untouched. -/
theorem applyCheck_of_none (m : StatusMap) (t : ToolConfig) (env : ProbeEnv)
    (lat : Int) (now : Nat) (h : t.effective_health_check = "none") :
    applyCheck m t env lat now = m := by
  simp +decide [applyCheck, checkTool, h]

/-- A probe that writes performs exactly the dict assignment of its own
record. -/
theorem applyCheck_write (m : StatusMap) (t : ToolConfig) (env : ProbeEnv)
    (lat : Int) (now : Nat) (st : ToolStatus)
    (h : checkTool t env lat now = .write st) :
    applyCheck m t env lat now = setKey m t.name st := by
  simp [applyCheck, h]

/-- One probe never touches another tool's entry. -/
theorem applyCheck_other (m : StatusMap) (t : ToolConfig) (env : ProbeEnv)
    (lat : Int) (now : Nat) (n : String) (hn : n ≠ t.name) :
    getKey (applyCheck m t env lat now) n = getKey m n := by
  cases hc : checkTool t env lat now with
  | write st => simp [applyCheck, hc, getKey_setKey_other _ _ _ _ hn]
  | skip => simp [applyCheck, hc]
  | cancelled => simp [applyCheck, hc]

/-- A probe suspended at an await and cancelled there unwinds without
writing: `CancelledError` is not caught by `except Exception`, so the
status write is never reached. -/
theorem cancelled_probe_writes_nothing (m : StatusMap) (t : ToolConfig)
    (lat : Int) (now : Nat) (h : probeAwaits t = true) :
    applyCheck m t cancelledEnv lat now = m := by
  unfold probeAwaits at h
  rcases eff_values t with h1 | h1 | h1 | h1 <;> simp +decide [h1] at h
  · simp +decide [applyCheck, checkTool, checkToolCore, checkHttp, h1, h,
      cancelledEnv]
  · obtain ⟨h2, h3⟩ := h
    unfold urlPortOk at h3
    rcases hp : urlPort (t.url.getD "") with p | u
    · rw [hp] at h3; simp at h3
    · simp +decide [applyCheck, checkTool, checkToolCore, checkTcp, h1, h2,
        hp, cancelledEnv]
  · simp +decide [applyCheck, checkTool, checkToolCore, checkProcess, h1, h,
      cancelledEnv]

/-! # Helper lemmas: the status map across rounds -/

/-- The `_init_statuses` writes the default record for every listed tool. -/
theorem initStatuses_getKey (tools : List ToolConfig) (m : StatusMap)
    (n : String) :
    getKey (initStatuses tools m) n
      = if tools.any (fun t => t.name == n) then some {} else getKey m n := by
  induction tools generalizing m with
  | nil => simp [initStatuses]
  | cons t ts ih =>
    simp only [initStatuses, List.foldl] at ih ⊢
    rw [ih]
    by_cases hn : t.name = n
    · by_cases hts : ts.any (fun t => t.name == n) = true
      · simp [hts, hn]
      · simp [hts, hn, getKey_setKey_same]
    · by_cases hts : ts.any (fun t => t.name == n) = true
      · simp [hts, hn]
      · simp [hts, hn, getKey_setKey_other _ _ _ _ (Ne.symm hn)]

/-- A round leaves an entry untouched when every tool carrying that name
has an unresolvable strategy. -/
theorem roundCheck_skipName (tools : List ToolConfig)
    (env : String → ProbeEnv) (lat : String → Int) (now : Nat)
    (m : StatusMap) (n : String)
    (h : ∀ t' ∈ tools, t'.name = n → t'.effective_health_check = "none") :
    getKey (roundCheck tools env lat now m) n = getKey m n := by
  induction tools generalizing m with
  | nil => simp [roundCheck]
  | cons t ts ih =>
    simp only [roundCheck, List.foldl] at ih ⊢
    rw [ih _ (fun t' ht' => h t' (List.mem_cons_of_mem _ ht'))]
    by_cases hn : t.name = n
    · rw [applyCheck_of_none _ _ _ _ _ (h t (List.mem_cons_self _ _) hn)]
    · exact applyCheck_other _ _ _ _ _ _ (Ne.symm hn)

/-- Entries that no round-in-a-list touches keep their value. -/
theorem roundsPreserve (rounds : List ((String → ProbeEnv) × (String → Int) × Nat))
    (tools : List ToolConfig) (m : StatusMap) (n : String)
    (h : ∀ t' ∈ tools, t'.name = n → t'.effective_health_check = "none") :
    getKey (rounds.foldl (fun acc r => roundCheck tools r.1 r.2.1 r.2.2 acc) m) n
      = getKey m n := by
  induction rounds generalizing m with
  | nil => simp
  | cons r rs ih =>
    simp only [List.foldl]
    rw [ih, roundCheck_skipName _ _ _ _ _ _ h]

/-- Changing what the oracles answer for one tool name cannot change any
other name's entry in a round. -/
theorem roundCheck_isolated (tools : List ToolConfig)
    (env₁ env₂ : String → ProbeEnv) (lat : String → Int) (now : Nat)
    (m₁ m₂ : StatusMap) (n : String)
    (hm : ∀ k, k ≠ n → getKey m₁ k = getKey m₂ k)
    (henv : ∀ t' ∈ tools, t'.name ≠ n → env₁ t'.name = env₂ t'.name) :
    ∀ k, k ≠ n →
      getKey (roundCheck tools env₁ lat now m₁) k
        = getKey (roundCheck tools env₂ lat now m₂) k := by
  induction tools generalizing m₁ m₂ with
  | nil => simpa [roundCheck] using hm
  | cons t ts ih =>
    intro k hk
    simp only [roundCheck, List.foldl] at ih ⊢
    refine ih _ _ ?_ (fun t' ht' => henv t' (List.mem_cons_of_mem _ ht')) k hk
    intro k' hk'
    by_cases hn : t.name = n
    · rw [applyCheck_other _ _ _ _ _ _ (hn ▸ hk'),
        applyCheck_other _ _ _ _ _ _ (hn ▸ hk')]
      exact hm k' hk'
    · rw [henv t (List.mem_cons_self _ _) hn]
      cases hc : checkTool t (env₂ t.name) (lat t.name) now with
      | write st =>
        rw [applyCheck_write _ _ _ _ _ _ hc, applyCheck_write _ _ _ _ _ _ hc]
        by_cases hkt : k' = t.name
        · rw [hkt, getKey_setKey_same, getKey_setKey_same]
        · rw [getKey_setKey_other _ _ _ _ hkt, getKey_setKey_other _ _ _ _ hkt]
          exact hm k' hk'
      | skip => simp [applyCheck, hc, hm k' hk']
      | cancelled => simp [applyCheck, hc, hm k' hk']

/-! # Helper lemmas: a stopped engine takes no step -/

theorem no_step_after_stop (e e' : Engine) (h : EngStep (stopEngine e) e') :
    False := by
  cases h with
  | wake _ ht => simp [stopEngine] at ht
  | probeDone _ _ _ _ _ ht => simp [stopEngine] at ht
  | roundDone ht => simp [stopEngine] at ht

end DevToolHub.Health

namespace DevToolHub

/-! # The claims -/

/-- C1: every probe completion replaces the tool's entry as one whole
`ToolStatus` record; when the probe body raises any `Exception` the
record written is a full `down` record with empty details (never a mix
of old and new fields, never a partially-updated record — the written
record does not depend on the previous map at all); and one tool's
failure leaves every other tool's probe and status record in the same
round unaffected. -/
theorem C1_probe_failure_atomic_and_isolated :
    ∀ (m : StatusMap) (t : ToolConfig) (env : ProbeEnv) (lat : Int) (now : Nat),
      (Health.checkToolCore t env = .exn →
        Health.applyCheck m t env lat now
          = setKey m t.name
              { status := "down", latency_ms := lat, last_checked := some now,
                details := [] })
      ∧ (∀ st, Health.checkTool t env lat now = .write st →
          ∀ m' : StatusMap, Health.applyCheck m' t env lat now = setKey m' t.name st)
      ∧ (∀ n, n ≠ t.name →
          getKey (Health.applyCheck m t env lat now) n = getKey m n)
      ∧ (∀ (tools : List ToolConfig) (env₁ env₂ : String → ProbeEnv)
            (latf : String → Int) (now' : Nat) (m' : StatusMap),
          (∀ t' ∈ tools, t'.name ≠ t.name → env₁ t'.name = env₂ t'.name) →
          ∀ k, k ≠ t.name →
            getKey (Health.roundCheck tools env₁ latf now' m') k
              = getKey (Health.roundCheck tools env₂ latf now' m') k) := by
  intro m t env lat now
  refine ⟨?_, ?_, ?_, ?_⟩
  · intro hexn
    exact Health.applyCheck_write _ _ _ _ _ _
      (Health.checkTool_write_of_exn _ _ _ _ hexn)
  · intro st hw m'
    exact Health.applyCheck_write _ _ _ _ _ _ hw
  · intro n hn
    exact Health.applyCheck_other _ _ _ _ _ _ hn
  · intro tools env₁ env₂ latf now' m' henv k hk
    exact Health.roundCheck_isolated tools env₁ env₂ latf now' m' m' t.name
      (fun _ _ => rfl) henv k hk

/-- Witness for C1: a tool whose http GET raises writes exactly the full
`down` record with empty details into an empty map. -/
theorem C1_probe_failure_atomic_and_isolated_witness :
    Health.checkToolCore
        { name := "a", url := some "http://h:1/", health_check := some .http }
        { http := .exn, tcp := fun _ _ => .connError, proc := .osError }
      = .exn
    ∧ Health.applyCheck []
        { name := "a", url := some "http://h:1/", health_check := some .http }
        { http := .exn, tcp := fun _ _ => .connError, proc := .osError } 3 9
      = [("a", { status := "down", latency_ms := 3, last_checked := some 9,
                 details := [] })] := by
  refine ⟨by decide, ?_⟩
  rw [(C1_probe_failure_atomic_and_isolated []
    { name := "a", url := some "http://h:1/", health_check := some .http }
    { http := .exn, tcp := fun _ _ => .connError, proc := .osError } 3 9).1
    (by decide)]
  decide

/-- C2: the effective probe strategy is resolved by priority — the
explicit `health_check` tag when set; otherwise http when `health_url` is
present; otherwise process when `process_pattern` is present; otherwise
http when `url` is present; otherwise none, in which case the probe is
skipped and the status entry stays whatever it last was.  ("Present"
is Python truthiness, as in the code's `if self.health_url:` tests: a
field set to the empty string counts as absent.)  The resolution is a
pure function of the `ToolConfig` passed to each `_check_tool` call and
is recomputed there on every check — the embedding has no state it could
cache it in, mirroring the method call in the source. -/
theorem C2_strategy_resolution_priority :
    ∀ t : ToolConfig,
      (∀ hc, t.health_check = some hc → t.effective_health_check = hc.toStr)
      ∧ (t.health_check = none → truthy t.health_url = true →
          t.effective_health_check = "http")
      ∧ (t.health_check = none → truthy t.health_url = false →
          truthy t.process_pattern = true →
          t.effective_health_check = "process")
      ∧ (t.health_check = none → truthy t.health_url = false →
          truthy t.process_pattern = false → truthy t.url = true →
          t.effective_health_check = "http")
      ∧ (t.health_check = none → truthy t.health_url = false →
          truthy t.process_pattern = false → truthy t.url = false →
          t.effective_health_check = "none")
      ∧ (t.effective_health_check = "none" →
          ∀ (m : StatusMap) (env : ProbeEnv) (lat : Int) (now : Nat),
            Health.applyCheck m t env lat now = m) := by
  intro t
  refine ⟨?_, ?_, ?_, ?_, ?_, ?_⟩
  · intro hc h; simp [ToolConfig.effective_health_check, h]
  · intro h h1; simp [ToolConfig.effective_health_check, h, h1]
  · intro h h1 h2; simp [ToolConfig.effective_health_check, h, h1, h2]
  · intro h h1 h2 h3; simp [ToolConfig.effective_health_check, h, h1, h2, h3]
  · intro h h1 h2 h3; simp [ToolConfig.effective_health_check, h, h1, h2, h3]
  · intro h m env lat now; exact Health.applyCheck_of_none _ _ _ _ _ h

/-- Witness for C2: the explicit tag wins over a present `url`; a
`health_url` alone resolves to http; an empty config resolves to none and
its probe leaves the map untouched. -/
theorem C2_strategy_resolution_priority_witness :
    ToolConfig.effective_health_check
        { name := "a", url := some "http://u:1/", health_check := some .tcp }
      = "tcp"
    ∧ ToolConfig.effective_health_check
        { name := "b", health_url := some "http://x:2/" } = "http"
    ∧ ToolConfig.effective_health_check { name := "c" } = "none"
    ∧ Health.applyCheck [("c", (⟨"unknown", 0, none, []⟩ : ToolStatus))]
        { name := "c" }
        { http := .exn, tcp := fun _ _ => .connError, proc := .osError } 1 2
      = [("c", (⟨"unknown", 0, none, []⟩ : ToolStatus))] := by
  refine ⟨?_, ?_, ?_, ?_⟩
  · exact (C2_strategy_resolution_priority _).1 .tcp rfl
  · exact (C2_strategy_resolution_priority _).2.1 rfl (by decide)
  · exact (C2_strategy_resolution_priority _).2.2.2.2.1 rfl (by decide)
      (by decide) (by decide)
  · exact (C2_strategy_resolution_priority _).2.2.2.2.2 (by decide) _ _ _ _

/-- C3: `stop()` is idempotent — safe when the engine was never started
and safe to call twice — and it fully drains the cancellation before
returning: after it returns the engine takes no further step (so neither
the polling loop nor any in-flight probe ever writes to the status map
again), and an in-flight probe that receives the cancellation at its
await unwinds without writing, because `CancelledError` is not an
`Exception`. -/
theorem C3_stop_idempotent_no_writes_after :
    ∀ e : Engine,
      (Health.stopEngine (Health.stopEngine e) = Health.stopEngine e)
      ∧ (e.task = none →
          Health.stopEngine e
            = { statuses := e.statuses, task := none, clientOpen := false })
      ∧ (∀ e', Relation.ReflTransGen Health.EngStep (Health.stopEngine e) e' →
          e' = Health.stopEngine e)
      ∧ (∀ (m : StatusMap) (t : ToolConfig) (lat : Int) (now : Nat),
          Health.probeAwaits t = true →
          Health.applyCheck m t cancelledEnv lat now = m) := by
  intro e
  refine ⟨rfl, fun _ => rfl, ?_, ?_⟩
  · intro e' h
    rcases h.cases_head with heq | ⟨c, hstep, _⟩
    · exact heq.symm
    · exact (Health.no_step_after_stop e c hstep).elim
  · intro m t lat now h
    exact Health.cancelled_probe_writes_nothing m t lat now h

/-- Witness for C3: stopping a sleeping engine twice equals stopping it
once, and a cancelled in-flight process probe leaves the map unchanged. -/
theorem C3_stop_idempotent_no_writes_after_witness :
    Health.stopEngine (Health.stopEngine
        { statuses := [], task := some .sleeping, clientOpen := true })
      = Health.stopEngine
          { statuses := [], task := some .sleeping, clientOpen := true }
    ∧ Health.applyCheck
        [("p", { status := "up", latency_ms := 7, last_checked := some 1,
                 details := [("pid", "44")] })]
        { name := "p", process_pattern := some "x" } cancelledEnv 5 6
      = [("p", { status := "up", latency_ms := 7, last_checked := some 1,
                 details := [("pid", "44")] })] := by
  refine ⟨(C3_stop_idempotent_no_writes_after _).1, ?_⟩
  exact (C3_stop_idempotent_no_writes_after
    { statuses := [], task := some .sleeping, clientOpen := true }).2.2.2
    _ { name := "p", process_pattern := some "x" } 5 6 (by decide)

/-- C4 counterexample: the claim says the memory detail falls back to
`memory.rss` when `memoryMB.rss` does not match, so on
`{"memoryMB": {}, "memory": {"rss": 104857600}}` it requires
`details["memory"] = "100 MB"`.  The code's memory loop `break`s as soon
as `memoryMB` is *any* dict, usable `rss` or not, so no memory detail is
produced at all. -/
theorem C4_counterexample_memoryMB_blocks_fallback :
    getKey (Health.extractHealthInfo
        [("memoryMB", Json.obj []),
         ("memory", Json.obj [("rss", Json.int 104857600)])])
      "memory" = none := by decide

set_option maxRecDepth 8000 in
/-- C4 (amended): the memory detail comes from `memoryMB.rss` when
`memoryMB` is an object with a truthy numeric `rss` (already megabytes,
truncated); otherwise — only when `memoryMB` is not an object — from
`memory.rss` (bytes, divided by 1,048,576, rounded half to even); an
object under `memoryMB` without a usable `rss` suppresses the fallback.
The uptime detail comes from `uptimeSeconds` or else `uptime`, first
numeric match wins, rendered `"<h>h <m>m"` exactly when the value is
≥ 3600 seconds and `"<m>m"` otherwise.  The claim's concrete examples
hold: `{"memory": {"rss": 104857600}}` gives "100 MB",
`{"memoryMB": {"rss": 512}}` gives "512 MB", 3661 seconds gives
"1h 1m", 59 seconds gives "0m". -/
theorem C4_amended_memory_uptime_extraction :
    (∀ data : List (String × Json),
      getKey (Health.extractHealthInfo data) "memory" = SpecSide.memorySpec data
      ∧ getKey (Health.extractHealthInfo data) "uptime" = SpecSide.uptimeSpec data)
    ∧ getKey (Health.extractHealthInfo
        [("memory", Json.obj [("rss", Json.int 104857600)])]) "memory"
      = some "100 MB"
    ∧ getKey (Health.extractHealthInfo
        [("memoryMB", Json.obj [("rss", Json.int 512)])]) "memory"
      = some "512 MB"
    ∧ getKey (Health.extractHealthInfo
        [("uptimeSeconds", Json.int 3661)]) "uptime" = some "1h 1m"
    ∧ getKey (Health.extractHealthInfo
        [("uptime", Json.int 59)]) "uptime" = some "0m" := by

  refine ⟨?_, by with_unfolding_all decide, by with_unfolding_all decide,
    by with_unfolding_all decide, by with_unfolding_all decide⟩
  intro data
  exact ⟨(Health.extract_memory data).trans (Health.memBlock_spec data),
    (Health.extract_uptime data).trans (Health.uptimeBlock_spec data)⟩

set_option maxRecDepth 8000 in
/-- C5 counterexample: the claim says the `endpoint` detail records
host and port "with those same defaults applied", so for a URL with no
explicit port the detail's port should be 80.  The code renders
`f"{parsed.hostname}:{parsed.port}"` without defaults: a tcp probe of
`http://example.com/` that connects writes `endpoint =
"example.com:None"`, not `"example.com:80"`. -/
theorem C5_counterexample_endpoint_has_no_defaults :
    Health.checkTool
        { name := "svc", url := some "http://example.com/",
          health_check := some .tcp }
        { http := .exn, tcp := fun _ _ => .success, proc := .osError } 0 0
      = .write { status := "up", latency_ms := 0, last_checked := some 0,
                 details := [("endpoint", "example.com:None")] }
    ∧ ("example.com:None" : String) ≠ "example.com:80" :=
  ⟨by with_unfolding_all decide, by decide⟩

/-- C5 (amended): a tcp probe is up iff a TCP connection to the URL's
hostname (default `127.0.0.1`) and port (default 80) succeeds within the
timeout; on success the details contain `endpoint`, which renders the
parsed hostname and port verbatim with *no* defaults (absent values
print as `None`), so the detail equals `host:port` exactly when the URL
carries an explicit hostname and port. -/
theorem C5_amended_tcp_probe :
    ∀ (t : ToolConfig) (env : ProbeEnv) (lat : Int) (now : Nat)
      (p : Option Nat),
      t.effective_health_check = "tcp" →
      truthy t.url = true →
      urlPort (t.url.getD "") = .ok p →
      (env.tcp (Health.tcpHost (t.url.getD "")) (Health.tcpPort (t.url.getD ""))
          = .success →
        Health.checkTool t env lat now
          = .write { status := "up", latency_ms := lat, last_checked := some now,
                     details := [("endpoint",
                       Health.endpointDetail (t.url.getD ""))] })
      ∧ (env.tcp (Health.tcpHost (t.url.getD ""))
            (Health.tcpPort (t.url.getD "")) = .connError →
        Health.checkTool t env lat now
          = .write { status := "down", latency_ms := lat,
                     last_checked := some now, details := [] })
      ∧ (∀ h n, urlHostname (t.url.getD "") = some h → p = some n →
          Health.endpointDetail (t.url.getD "") = h ++ ":" ++ toString n) := by
  intro t env lat now p heff hurl hport
  refine ⟨?_, ?_, ?_⟩
  · intro hc
    simp +decide [Health.checkTool, Health.checkToolCore, Health.checkTcp,
      heff, hurl, hport, hc]
  · intro hc
    simp +decide [Health.checkTool, Health.checkToolCore, Health.checkTcp,
      heff, hurl, hport, hc]
  · intro h n hh hn
    rw [hn] at hport
    simp [Health.endpointDetail, hh, hport]

set_option maxRecDepth 8000 in
/-- Witness for C5 (amended): a URL with explicit host and port probes
that host and port and records them as the endpoint. -/
theorem C5_amended_tcp_probe_witness :
    Health.checkTool
        { name := "w", url := some "http://h:9090/", health_check := some .tcp }
        { http := .exn,
          tcp := fun h p => if h == "h" && p == 9090 then .success else .connError,
          proc := .osError } 2 4
      = .write { status := "up", latency_ms := 2, last_checked := some 4,
                 details := [("endpoint", "h:9090")] } := by
  have h := (C5_amended_tcp_probe
    { name := "w", url := some "http://h:9090/", health_check := some .tcp }
    { http := .exn,
      tcp := fun h p => if h == "h" && p == 9090 then .success else .connError,
      proc := .osError } 2 4 (some 9090) (by decide) (by decide)
    (by decide)).1 (by decide)
  exact h.trans (by decide)

set_option maxRecDepth 8000 in
/-- C6 counterexample: the claim says malformed query output yields down
with *empty* details.  A row whose pid field is not numeric but whose
working-set field is numeric yields down with a `memory` detail. -/
theorem C6_counterexample_malformed_row_keeps_memory_detail :
    Health.checkProcess { name := "t", process_pattern := some "x" }
        (.output "Node,ProcessId,WorkingSetSize\r\nHOST,abc,1048576\r\n")
      = .ok (false, [("memory", "1 MB")])
    ∧ ([("memory", "1 MB")] : List (String × String)) ≠ [] :=
  ⟨by with_unfolding_all decide, by decide⟩

/-- C6 (amended): with zero cleaned rows the process probe returns
`(down, {})`; otherwise it is up iff at least one row has a parsable
(digit) pid, the memory detail is the summed working set in MB (present
when the sum is positive, even when no pid parsed — so malformed rows
can leave a `memory` detail on a down verdict), and the pid detail is
the first parsed pid with a `(+k)` suffix when more than one row
matched; the probe never raises (`OSError`/timeout give `(down, {})`). -/
theorem C6_amended_process_probe :
    ∀ (t : ToolConfig) (out : String),
      truthy t.process_pattern = true →
      (Health.cleanLines out = [] →
        Health.checkProcess t (.output out) = .ok (false, []))
      ∧ (Health.cleanLines out ≠ [] →
        Health.checkProcess t (.output out)
          = .ok (decide (SpecSide.validPids (Health.cleanLines out) ≠ []),
              Health.procDetails (SpecSide.validPids (Health.cleanLines out))
                (SpecSide.memSum (Health.cleanLines out))))
      ∧ (∀ env, Health.checkProcess t env ≠ .exn) := by
  intro t out hpat
  refine ⟨?_, ?_, ?_⟩
  · intro hemp
    simp [Health.checkProcess, hpat, hemp]
  · intro hne
    simp only [Health.checkProcess, hpat, Bool.not_true, Bool.false_eq_true,
      if_false, List.isEmpty_eq_true, hne, if_neg hne, Health.procFold,
      zero_add, List.nil_append]
    congr 1
    refine Prod.ext ?_ rfl
    simp [decide_eq_decide, List.length_pos]
  · intro env
    cases env with
    | output o =>
      simp only [Health.checkProcess, hpat]
      split
      · simp_all
      · split <;> simp_all
    | osError => simp [Health.checkProcess, hpat]
    | cancelled => simp [Health.checkProcess, hpat]

set_option maxRecDepth 8000 in
/-- Witness for C6 (amended): two matching rows with working sets
1,048,576 and 2,097,152 bytes give `(up, {pid: "100 (+1)",
memory: "3 MB"})`, and empty output gives `(down, {})`. -/
theorem C6_amended_process_probe_witness :
    Health.checkProcess { name := "t", process_pattern := some "x" }
        (.output "Node,ProcessId,WorkingSetSize\r\nHOST,100,1048576\r\nHOST,200,2097152\r\n")
      = .ok (true, [("pid", "100 (+1)"), ("memory", "3 MB")])
    ∧ Health.checkProcess { name := "t", process_pattern := some "x" }
        (.output "") = .ok (false, []) := by
  constructor
  · have h := ((C6_amended_process_probe
      { name := "t", process_pattern := some "x" }
      "Node,ProcessId,WorkingSetSize\r\nHOST,100,1048576\r\nHOST,200,2097152\r\n"
      (by decide)).2.1 (by with_unfolding_all decide))
    exact h.trans (by with_unfolding_all decide)
  · exact (C6_amended_process_probe { name := "t", process_pattern := some "x" }
      "" (by decide)).1 (by with_unfolding_all decide)

/-- C7: for every HTTP probe whose GET completes (on a truthy,
well-formed URL — `httpx` refuses malformed ones before any GET), the
probe is up iff the response status code is < 400; and a body that fails
to parse as JSON or is not a JSON object is tolerated silently: the
probe still reports the same up/down verdict with no details beyond the
resolved port. -/
theorem C7_http_up_iff_status_lt_400 :
    ∀ (t : ToolConfig) (resp : HttpResponse) (p : Option Nat),
      truthy (pyOr t.health_url t.url) = true →
      urlPort ((pyOr t.health_url t.url).getD "") = .ok p →
      (∃ details, Health.checkHttp t (.ok resp)
          = .ok (decide (resp.status_code < 400), details))
      ∧ ((∀ fields, resp.body ≠ .ok (Json.obj fields)) →
          Health.checkHttp t (.ok resp)
            = .ok (decide (resp.status_code < 400),
                   [("port", toString (Health.portOr80 p))])) := by
  intro t resp p hurl hport
  constructor
  · exact ⟨Health.httpDetails p resp, Health.checkHttp_val t resp p hurl hport⟩
  · intro hno
    rw [Health.checkHttp_val t resp p hurl hport,
      Health.httpDetails_no_obj p resp hno]

set_option maxRecDepth 8000 in
/-- Witness for C7: status 399 is up and 400 is down, each with only the
resolved port as detail when the body is not JSON. -/
theorem C7_http_up_iff_status_lt_400_witness :
    Health.checkHttp { name := "h", url := some "http://example.com:3000/x" }
        (.ok { status_code := 399, body := .error () })
      = .ok (true, [("port", "3000")])
    ∧ Health.checkHttp { name := "h", url := some "http://example.com:3000/x" }
        (.ok { status_code := 400, body := .error () })
      = .ok (false, [("port", "3000")]) := by
  constructor
  · have h := (C7_http_up_iff_status_lt_400
      { name := "h", url := some "http://example.com:3000/x" }
      { status_code := 399, body := .error () } (some 3000)
      (by decide) (by decide)).2
      (fun fields hb => Except.noConfusion hb)
    exact h.trans (by decide)
  · have h := (C7_http_up_iff_status_lt_400
      { name := "h", url := some "http://example.com:3000/x" }
      { status_code := 400, body := .error () } (some 3000)
      (by decide) (by decide)).2
      (fun fields hb => Except.noConfusion hb)
    exact h.trans (by decide)

/-- C8: a configured tool whose strategy resolves to none keeps its
initial status-map entry — status `unknown`, zero latency, no timestamp,
empty details — through any number of check rounds, so no telemetry is
ever attached to it.  (Tool names are the unique map keys per the data
model; the hypothesis asks only that every tool carrying this name is
strategy-less, which uniqueness implies.) -/
theorem C8_unresolvable_strategy_stays_unknown :
    ∀ (tools : List ToolConfig) (t : ToolConfig),
      t ∈ tools →
      t.effective_health_check = "none" →
      (∀ t' ∈ tools, t'.name = t.name → t'.effective_health_check = "none") →
      ∀ rounds : List ((String → ProbeEnv) × (String → Int) × Nat),
        getKey (rounds.foldl
            (fun acc r => Health.roundCheck tools r.1 r.2.1 r.2.2 acc)
            (Health.initStatuses tools []))
          t.name
        = some { status := "unknown", latency_ms := 0, last_checked := none,
                 details := [] } := by
  intro tools t ht heff hsame rounds
  rw [Health.roundsPreserve rounds tools _ t.name hsame,
    Health.initStatuses_getKey]
  have hany : tools.any (fun t' => t'.name == t.name) = true :=
    List.any_eq_true.mpr ⟨t, ht, by simp⟩
  rw [if_pos hany]

/-- Witness for C8: a two-tool config where one tool has no strategy; its
entry is still the untouched default after two rounds that probe the
other tool. -/
theorem C8_unresolvable_strategy_stays_unknown_witness :
    getKey
      (([((fun _ => { http := .ok { status_code := 200, body := .error () },
                      tcp := fun _ _ => .connError, proc := .osError }),
          (fun _ => (3 : Int)), 1),
         ((fun _ => { http := .exn,
                      tcp := fun _ _ => .connError, proc := .osError }),
          (fun _ => (4 : Int)), 2)] :
        List ((String → ProbeEnv) × (String → Int) × Nat)).foldl
          (fun acc r => Health.roundCheck
            [{ name := "n" }, { name := "h", health_url := some "http://x:1/" }]
            r.1 r.2.1 r.2.2 acc)
          (Health.initStatuses
            [{ name := "n" }, { name := "h", health_url := some "http://x:1/" }]
            []))
      "n"
    = some { status := "unknown", latency_ms := 0, last_checked := none,
             details := [] } :=
  C8_unresolvable_strategy_stays_unknown
    [{ name := "n" }, { name := "h", health_url := some "http://x:1/" }]
    { name := "n" } (by decide) (by decide) (by decide) _

/-- C9: the focus-or-launch action (the web route and the TUI action)
tries to focus by `window_title`; when no window is found and a
`start_command` is configured it launches and reports the new pid; when
no window is found and no `start_command` is configured the outcome is
not-found, never launch-failed; and a launch-failed outcome arises only
when a launch was actually attempted and the spawn failed. -/
theorem C9_focus_or_launch_outcomes :
    ∀ (tools : List ToolConfig) (t : ToolConfig) (tn : String)
      (focusW : String → Bool) (launchP : String → Option Nat)
      (launchT : String → Option String → Bool → Option Nat),
      tools.find? (fun x => x.name == tn) = some t →
      truthy t.window_title = true →
      (focusW (t.window_title.getD "") = true →
        App.api_focus tools tn focusW launchP
          = { ok := true, message := "Focused", status_code := 200 })
      ∧ (focusW (t.window_title.getD "") = false →
          truthy t.start_command = true →
          ∀ pid, launchP (t.start_command.getD "") = some pid →
            App.api_focus tools tn focusW launchP
              = { ok := true,
                  message := "Opening (PID " ++ toString pid ++ ")",
                  status_code := 200 })
      ∧ (focusW (t.window_title.getD "") = false →
          truthy t.start_command = false →
          App.api_focus tools tn focusW launchP
            = { ok := false, message := "Window not found", status_code := 404 }
          ∧ App.api_focus tools tn focusW launchP
            ≠ { ok := false, message := "Failed to start", status_code := 500 })
      ∧ (App.api_focus tools tn focusW launchP
            = { ok := false, message := "Failed to start", status_code := 500 } →
          focusW (t.window_title.getD "") = false
          ∧ truthy t.start_command = true
          ∧ launchP (t.start_command.getD "") = none)
      ∧ (focusW (t.window_title.getD "") = true →
          Tui.action_open_tool (some t) focusW launchT
            = some ("Focused " ++ t.name))
      ∧ (focusW (t.window_title.getD "") = false →
          truthy t.start_command = true →
          ∀ pid,
            launchT (t.start_command.getD "") t.start_cwd t.start_wsl = some pid →
            Tui.action_open_tool (some t) focusW launchT
              = some ("Launched " ++ t.name ++ " (PID " ++ toString pid ++ ")"))
      ∧ (focusW (t.window_title.getD "") = false →
          truthy t.start_command = false →
          Tui.action_open_tool (some t) focusW launchT
            = some ("Window not found for " ++ t.name)
          ∧ Tui.action_open_tool (some t) focusW launchT
            ≠ some ("Failed to launch " ++ t.name))
      ∧ (Tui.action_open_tool (some t) focusW launchT
            = some ("Failed to launch " ++ t.name) →
          focusW (t.window_title.getD "") = false
          ∧ truthy t.start_command = true
          ∧ launchT (t.start_command.getD "") t.start_cwd t.start_wsl = none) := by
  intro tools t tn focusW launchP launchT hfind hw
  have hmsg : ∀ n : String,
      ("Window not found for " ++ n) ≠ ("Failed to launch " ++ n) := by
    intro n h
    have h2 := congrArg String.data h
    simp only [String.data_append] at h2
    have h3 := congrArg List.head? h2
    simp at h3
  have hmsg2 : ∀ n : String,
      ("Focused " ++ n) ≠ ("Failed to launch " ++ n) := by
    intro n h
    have h2 := congrArg String.data h
    simp only [String.data_append] at h2
    have h3 := congrArg (fun l => l.get? 1) h2
    simp at h3
  refine ⟨?_, ?_, ?_, ?_, ?_, ?_, ?_, ?_⟩
  · intro hf; simp [App.api_focus, hfind, hw, hf]
  · intro hf hc pid hpid; simp [App.api_focus, hfind, hw, hf, hc, hpid]
  · intro hf hc
    constructor
    · simp [App.api_focus, hfind, hw, hf, hc]
    · simp [App.api_focus, hfind, hw, hf, hc]
  · intro hres
    by_cases hf : focusW (t.window_title.getD "") = true
    · simp [App.api_focus, hfind, hw, hf] at hres
    · refine ⟨by simpa using hf, ?_⟩
      by_cases hc : truthy t.start_command = true
      · refine ⟨hc, ?_⟩
        rcases hpid : launchP (t.start_command.getD "") with _ | pid
        · rfl
        · simp [App.api_focus, hfind, hw, hf, hc, hpid] at hres
      · simp [App.api_focus, hfind, hw, hf, hc] at hres
  · intro hf; simp [Tui.action_open_tool, hw, hf]
  · intro hf hc pid hpid; simp [Tui.action_open_tool, hw, hf, hc, hpid]
  · intro hf hc
    constructor
    · simp [Tui.action_open_tool, hw, hf, hc]
    · simp only [Tui.action_open_tool, hw, hf, hc]
      simp [hmsg t.name]
  · intro hres
    by_cases hf : focusW (t.window_title.getD "") = true
    · simp [Tui.action_open_tool, hw, hf] at hres
      exact absurd hres (hmsg2 t.name)
    · have hf' : focusW (t.window_title.getD "") = false := by simpa using hf
      refine ⟨hf', ?_⟩
      by_cases hc : truthy t.start_command = true
      · refine ⟨hc, ?_⟩
        rcases hpid : launchT (t.start_command.getD "") t.start_cwd t.start_wsl
          with _ | pid
        · rfl
        · simp [Tui.action_open_tool, hw, hf', hc, hpid] at hres
          exact absurd hres.symm (by
            intro h2
            have h3 := congrArg String.data h2
            simp only [String.data_append] at h3
            have h4 := congrArg List.head? h3
            simp at h4)
      · simp [Tui.action_open_tool, hw, hf', hc] at hres
        exact absurd hres (hmsg t.name)

/-- Witness for C9: a tool with a window title that resolves to no
window and no start command yields the not-found response, not the
launch-failed one. -/
theorem C9_focus_or_launch_outcomes_witness :
    App.api_focus [{ name := "ed", window_title := some "Editor" }] "ed"
        (fun _ => false) (fun _ => none)
      = { ok := false, message := "Window not found", status_code := 404 }
    ∧ Tui.action_open_tool
        (some { name := "ed", window_title := some "Editor" })
        (fun _ => false) (fun _ _ _ => none)
      = some ("Window not found for " ++ "ed") := by
  constructor
  · exact ((C9_focus_or_launch_outcomes
      [{ name := "ed", window_title := some "Editor" }]
      { name := "ed", window_title := some "Editor" } "ed"
      (fun _ => false) (fun _ => none) (fun _ _ _ => none)
      (by decide) (by decide)).2.2.1 rfl (by decide)).1
  · exact ((C9_focus_or_launch_outcomes
      [{ name := "ed", window_title := some "Editor" }]
      { name := "ed", window_title := some "Editor" } "ed"
      (fun _ => false) (fun _ => none) (fun _ _ _ => none)
      (by decide) (by decide)).2.2.2.2.2.2.1 rfl (by decide)).1

/-- C10: `ToolStatus` and `HealthChecker` are defined twice — in
`health.py` for the TUI and in `app.py` for the web front end — and the
two copies are the same implementation: the source texts are
byte-identical, the single `ToolStatus` structure models both records,
and every embedded operation of the `app.py` copy is extensionally (here
even definitionally) equal to its `health.py` counterpart. -/
theorem C10_app_and_health_checkers_equal :
    App.extractHealthInfo = Health.extractHealthInfo
    ∧ App.checkHttp = Health.checkHttp
    ∧ App.checkTcp = Health.checkTcp
    ∧ App.checkProcess = Health.checkProcess
    ∧ App.checkToolCore = Health.checkToolCore
    ∧ App.checkTool = Health.checkTool
    ∧ App.applyCheck = Health.applyCheck
    ∧ App.roundCheck = Health.roundCheck
    ∧ App.initStatuses = Health.initStatuses
    ∧ App.run_initial_check = Health.run_initial_check
    ∧ App.stopEngine = Health.stopEngine
    ∧ App.get_all_statuses = Health.get_all_statuses :=
  ⟨rfl, rfl, rfl, rfl, rfl, rfl, rfl, rfl, rfl, rfl, rfl, rfl⟩

end DevToolHub
